import Mathlib

/-!
Shallow embedding of the PCC congestion-control kernel module
(`src/tcp_pcc.c`, PCCproject/PCC-Kernel) and verification of its
specification claims.

Modelling conventions:
* `u32` values are `Nat`; operations that wrap in C carry an explicit
  `% 2^32` (helpers `sub32`, `toU32`, `toI32`).
* `u64` values are `Nat`; `s64`/`s32` values are `Int`.  C's signed
  division truncates toward zero, which is `Int.tdiv`.
* The kernel's `get_random_bytes` is modelled by an explicit `rand : Nat`
  parameter (bit `i` of `rand` is bit `i` of the random char).
* The socket/tcp_sock fields read or written by the module are gathered
  in the `Sock` structure; the pacing rate and cwnd written back to the
  host are the mutable fields `sk_pacing_rate` and `snd_cwnd`.
* The utility function pointer bound at init is the tagged variant
  `UtilFn`; the utility functions return the utility value and the
  caller stores it in the interval, exactly where the C code writes
  `interval->utility`.
* `printk` debug output is ignored; dead local computations with no
  observable effect (`adjust_utility` in `pcc_decide_slow_start`,
  `extra_rate`, `packets_sent`) are noted in comments but not modelled.
-/

/-- Wrap-around subtraction of two `u32` values (C unsigned arithmetic). -/
def sub32 (a b : Nat) : Nat :=
  (a % 4294967296 + (4294967296 - b % 4294967296)) % 4294967296

/-- Reinterpret a `u32` bit pattern as a C `int`/`s32` value. -/
def toI32 (n : Nat) : Int :=
  if n % 4294967296 < 2147483648 then ((n % 4294967296 : Nat) : Int)
  else ((n % 4294967296 : Nat) : Int) - 4294967296

/-- Convert a signed value to `u32` (C conversion, reduction mod `2^32`). -/
def toU32 (x : Int) : Nat :=
  (x % (4294967296 : Int)).toNat

/-- Convert a signed value to `u64` (C conversion, reduction mod `2^64`). -/
def toU64 (x : Int) : Nat :=
  (x % (18446744073709551616 : Int)).toNat

/-- Reinterpret a `u64` bit pattern as an `s64` value. -/
def toI64 (n : Nat) : Int :=
  if n % 18446744073709551616 < 9223372036854775808 then
    ((n % 18446744073709551616 : Nat) : Int)
  else ((n % 18446744073709551616 : Nat) : Int) - 18446744073709551616

/-- Truncate a `u64` value to `u32` (C conversion). -/
def u64toU32 (n : Nat) : Nat := n % 4294967296

/- Constants from the top of `tcp_pcc.c`. -/

def PCC_INTERVALS : Nat := 4
def PCC_PROBING_EPS : Nat := 5
def PCC_PROBING_EPS_PART : Nat := 100
def PCC_SCALE : Int := 1000
def PCC_RATE_MIN : Nat := 1024
def PCC_RATE_MIN_PACKETS_PER_RTT : Nat := 2
def PCC_IGNORE_PACKETS : Nat := 10
def PCC_INTERVAL_MIN_PACKETS : Int := 50
def PCC_ALPHA : Int := 100
def PCC_GRAD_STEP_SIZE : Int := 25
def PCC_MAX_SWING_BUFFER : Int := 2
def PCC_LAT_INFL_FILTER : Int := 30
def PCC_MIN_RATE_DIFF_RATIO_FOR_GRAD : Int := 20
def PCC_MIN_CHANGE_BOUND : Int := 100
def PCC_CHANGE_BOUND_STEP : Int := 70
def PCC_AMP_MIN : Int := 2
def PCC_LOSS_MARGIN : Int := 5
def PCC_MAX_LOSS : Int := 10
def S64_MIN : Int := -9223372036854775808

/-- Decision direction (`enum PCC_DECISION`). -/
inductive PccDecision where
  | rate_up
  | rate_down
  | rate_stay
deriving DecidableEq, Repr, Inhabited

/-- Utility function bound at init (`pcc->util_func` pointer). -/
inductive UtilFn where
  | allegro
  | vivace
deriving DecidableEq, Repr, Inhabited

/-- One monitor interval (`struct pcc_interval`).  The kernel allocates the
ring zeroed, so the `Inhabited` default (all zero) is the initial state. -/
structure PccInterval where
  rate : Nat                 -- u64, bytes/sec
  recv_start : Int           -- s64 timestamps (microseconds)
  recv_end : Int
  send_start : Int
  send_end : Int
  start_rtt : Int            -- s64 smoothed rtt at interval edges
  end_rtt : Int
  packets_sent_base : Nat    -- u32
  packets_ended : Nat        -- u32
  utility : Int              -- s64
  lost : Nat                 -- u32
  delivered : Nat            -- u32
deriving DecidableEq, Repr, Inhabited

/-- The host socket state the module reads, plus the two fields it writes
(`sk_pacing_rate`, `snd_cwnd`). -/
structure Sock where
  srtt_us : Nat              -- u32, tp->srtt_us (shifted by 3 when read)
  mss_cache : Nat            -- u32
  data_segs_out : Nat        -- u32, cumulative
  delivered : Nat            -- u32, cumulative
  lost : Nat                 -- u32, cumulative
  in_flight : Nat            -- u32, tcp_packets_in_flight
  tcp_mstamp : Int           -- u64 monotonic clock, microseconds
  snd_cwnd_clamp : Nat       -- u32
  sk_max_pacing_rate : Nat   -- u64
  sk_pacing_rate : Nat       -- u64, written by the module
  snd_cwnd : Nat             -- u32, written by the module
deriving DecidableEq, Repr, Inhabited

/-- Per-connection controller state (`struct pcc_data`).  The debug-only
`id` counter and the never-read `packets_sent` field are omitted. -/
structure PccData where
  intervals : List PccInterval
  send_index : Int           -- int
  recive_index : Int         -- int (source spelling)
  rate : Int                 -- s64
  last_rate : Int            -- s64
  util_func : UtilFn
  start_mode : Bool
  moving : Bool
  loss_state : Bool
  wait : Bool
  last_decision : PccDecision
  lost_base : Nat            -- u32
  delivered_base : Nat       -- u32
  decisions_count : Int
  packets_counted : Nat      -- u32
  spare : Nat                -- u32
  amplifier : Int            -- s32
  swing_buffer : Int         -- s32
  change_bound : Int         -- s32
deriving DecidableEq, Repr, Inhabited

/-- `pcc_get_rtt`: smoothed rtt in microseconds, 1ms fallback. -/
def pcc_get_rtt (sk : Sock) : Nat :=
  if sk.srtt_us ≠ 0 then max (sk.srtt_us >>> 3) 1 else 1000

/-- `pcc_set_cwnd`: program the cwnd from the current pacing rate.
The `min((u32)cwnd, clamp)` cast truncates the u64 product to u32. -/
def pcc_set_cwnd (sk : Sock) : Sock :=
  let cwnd := sk.sk_pacing_rate * pcc_get_rtt sk / sk.mss_cache / 1000000 * 2
  let cwnd := max 4 cwnd
  let cwnd := min (cwnd % 4294967296) sk.snd_cwnd_clamp
  { sk with snd_cwnd := cwnd }

/-- `pcc_valid`: the controller was fully inited (ring allocated and the
first interval's rate nonzero). -/
def pcc_valid (pcc : PccData) : Bool :=
  !pcc.intervals.isEmpty && (pcc.intervals.getD 0 default).rate != 0

/-- `pcc_setup_intervals_probing`: rate +-5% paired layout, order of each
pair drawn from one random bit; counters reset; cursors to 0. -/
def pcc_setup_intervals_probing (rand : Nat) (pcc : PccData) : PccData :=
  let rate_high := toU64 (pcc.rate * ((PCC_PROBING_EPS_PART : Int) + (PCC_PROBING_EPS : Int))) / PCC_PROBING_EPS_PART
  let rate_low := toU64 (pcc.rate * ((PCC_PROBING_EPS_PART : Int) - (PCC_PROBING_EPS : Int))) / PCC_PROBING_EPS_PART
  let r0 := if (rand >>> 0) % 2 = 1 then rate_low else rate_high
  let r1 := if (rand >>> 0) % 2 = 1 then rate_high else rate_low
  let r2 := if (rand >>> 1) % 2 = 1 then rate_low else rate_high
  let r3 := if (rand >>> 1) % 2 = 1 then rate_high else rate_low
  let ivs := pcc.intervals
  let ivs := ivs.set 0 { ivs.getD 0 default with rate := r0, packets_sent_base := 0 }
  let ivs := ivs.set 1 { ivs.getD 1 default with rate := r1, packets_sent_base := 0 }
  let ivs := ivs.set 2 { ivs.getD 2 default with rate := r2, packets_sent_base := 0 }
  let ivs := ivs.set 3 { ivs.getD 3 default with rate := r3, packets_sent_base := 0 }
  { pcc with intervals := ivs, send_index := 0, recive_index := 0, wait := false }

/-- `pcc_setup_intervals_moving`: one interval at the current rate. -/
def pcc_setup_intervals_moving (pcc : PccData) : PccData :=
  let ivs := pcc.intervals
  let ivs := ivs.set 0 { ivs.getD 0 default with packets_sent_base := 0, rate := toU64 pcc.rate }
  { pcc with intervals := ivs, send_index := 0, recive_index := 0, wait := false }

/-- `start_interval`: if not waiting, reset the sending interval's counters
and stamp its send start; program the pacer with the (clamped) target. -/
def start_interval (sk : Sock) (pcc : PccData) : PccData × Sock :=
  let rate := toU64 pcc.rate
  let pr : PccData × Nat :=
    if pcc.wait = false then
      let iv := pcc.intervals.getD pcc.send_index.toNat default
      let iv := { iv with packets_ended := 0, lost := 0, delivered := 0,
                          packets_sent_base := max sk.data_segs_out 1,
                          send_start := sk.tcp_mstamp }
      ({ pcc with intervals := pcc.intervals.set pcc.send_index.toNat iv }, iv.rate)
    else (pcc, rate)
  let rate := max pr.2 PCC_RATE_MIN
  let rate := min rate sk.sk_max_pacing_rate
  let sk := { sk with sk_pacing_rate := rate }
  (pr.1, pcc_set_cwnd sk)

/-- Loop body of `pcc_exp`, with fuel standing in for the C loop's
termination (for the arguments that arise, `|x| < 10*SCALE`, the loop
exits long before the fuel runs out because `temp` reaches 0). -/
def pcc_exp_go (x : Int) (temp e : Int) (i : Nat) : Nat → Int
  | 0 => e
  | fuel+1 =>
    if temp = 0 then e
    else
      let temp := ((temp * x).tdiv (i : Int)).tdiv PCC_SCALE
      pcc_exp_go x temp (e + temp) (i + 1) fuel

/-- `pcc_exp`: fixed-point `e^(x/SCALE) * SCALE` by truncating Taylor
series; the s64 accumulator is returned as u32. -/
def pcc_exp (x : Int) : Nat :=
  toU32 (pcc_exp_go x PCC_SCALE PCC_SCALE 1 100000)

/-- `pcc_calc_util_grad`: gradient of utility w.r.t. rate, zero when the
rates are within 2% of `rate_1` (too noisy). -/
def pcc_calc_util_grad (rate_1 util_1 rate_2 util_2 : Int) : Int :=
  let rate_diff_q := (PCC_SCALE * (rate_2 - rate_1)).tdiv rate_1
  if rate_diff_q < PCC_MIN_RATE_DIFF_RATIO_FOR_GRAD ∧
     rate_diff_q > -1 * PCC_MIN_RATE_DIFF_RATIO_FOR_GRAD then 0
  else (PCC_SCALE * PCC_SCALE * (util_2 - util_1)).tdiv (rate_2 - rate_1)

/-- `pcc_calc_utility_vivace` (loss + latency).  Returns the utility the C
code stores into `interval->utility`.  `loss_frac` is the source's
`loss_ratio` local. -/
def pcc_calc_utility_vivace (sk : Sock) (pcc : PccData) (iv : PccInterval) : Int :=
  let send_dur := iv.send_end - iv.send_start
  let recv_dur := iv.recv_end - iv.recv_start
  let lost : Int := iv.lost
  let delivered : Int := iv.delivered
  let mss : Int := sk.mss_cache
  let rate : Int := iv.rate
  let throughput : Int := if recv_dur > 0 then (1000000 * delivered * mss).tdiv recv_dur else 0
  if delivered = 0 then 0
  else
    let rtt_diff := iv.end_rtt - iv.start_rtt
    let rtt_diff_thresh : Int := if throughput > 0 then (2 * 1000000 * mss).tdiv throughput else 0
    let lat_infl : Int := if send_dur > 0 then (PCC_SCALE * rtt_diff).tdiv send_dur else 0
    let lat_infl := if rtt_diff < rtt_diff_thresh ∧ rtt_diff > -1 * rtt_diff_thresh then 0 else lat_infl
    let lat_infl := if lat_infl < PCC_LAT_INFL_FILTER ∧ lat_infl > -1 * PCC_LAT_INFL_FILTER then 0 else lat_infl
    let lat_infl := if lat_infl < 0 ∧ pcc.start_mode = true then 0 else lat_infl
    let loss_frac := (lost * PCC_SCALE).tdiv (lost + delivered)
    let loss_frac := if pcc.start_mode = true ∧ loss_frac < 100 then 0 else loss_frac
    rate - (rate * (900 * lat_infl + 11 * loss_frac)).tdiv PCC_SCALE

/-- `pcc_calc_utility_allegro` (loss only).  `loss_frac` is the source's
`loss_ratio` local; `pcc_exp`'s s64 argument passes through an s32
parameter and its u32 result joins `PCC_SCALE` in u32 arithmetic. -/
def pcc_calc_utility_allegro (sk : Sock) (iv : PccInterval) : Int :=
  let lost : Int := iv.lost
  let delivered : Int := iv.delivered
  let mss : Int := sk.mss_cache
  let rate : Int := iv.rate
  let throughput : Int :=
    if iv.recv_start < iv.recv_end then (1000000 * delivered * mss).tdiv (iv.recv_end - iv.recv_start) else 0
  if lost + delivered = 0 then S64_MIN
  else
    let loss_frac := (lost * PCC_SCALE * PCC_ALPHA).tdiv (lost + delivered)
    let util := loss_frac - PCC_LOSS_MARGIN * PCC_SCALE
    let util :=
      if util < PCC_MAX_LOSS * PCC_SCALE then
        (throughput * PCC_SCALE).tdiv (((pcc_exp (toI32 (toU32 util)) + 1000) % 4294967296 : Nat) : Int)
      else 0
    let util := util * (PCC_SCALE * PCC_ALPHA - loss_frac)
    let util := util.tdiv (PCC_SCALE * PCC_ALPHA)
    util - (rate * loss_frac).tdiv (PCC_ALPHA * PCC_SCALE)

/-- Dispatch through the utility function pointer. -/
def calc_utility (f : UtilFn) (sk : Sock) (pcc : PccData) (iv : PccInterval) : Int :=
  match f with
  | .allegro => pcc_calc_utility_allegro sk iv
  | .vivace => pcc_calc_utility_vivace sk pcc iv

/-- `pcc_get_decision`: direction of a (u32) candidate rate vs current. -/
def pcc_get_decision (pcc : PccData) (new_rate : Nat) : PccDecision :=
  if pcc.rate = (new_rate : Int) then .rate_stay
  else if pcc.rate < (new_rate : Int) then .rate_up
  else .rate_down

/-- `pcc_decide_rate`: the probing vote.  Returns the (u32-truncated) new
rate and the controller with `last_rate` and the utility seed updated on
agreement. -/
def pcc_decide_rate (pcc : PccData) : Nat × PccData :=
  let i0 := pcc.intervals.getD 0 default
  let i1 := pcc.intervals.getD 1 default
  let i2 := pcc.intervals.getD 2 default
  let i3 := pcc.intervals.getD 3 default
  let run_1_res : Bool := decide (i0.utility > i1.utility)
  let run_2_res : Bool := decide (i2.utility > i3.utility)
  let did_agree : Bool := (run_1_res == run_2_res) == decide (i0.rate = i2.rate)
  if did_agree = true then
    if run_2_res = true then
      (u64toU32 i2.rate,
       { pcc with last_rate := toI64 i2.rate,
                  intervals := pcc.intervals.set 0 { i0 with utility := i2.utility } })
    else
      (u64toU32 i3.rate,
       { pcc with last_rate := toI64 i3.rate,
                  intervals := pcc.intervals.set 0 { i0 with utility := i3.utility } })
  else (toU32 pcc.rate, pcc)

/-- `pcc_decide`: run the utility function over all four intervals, vote,
then set up moving (rate changed) or probing (rate kept) intervals. -/
def pcc_decide (rand : Nat) (sk : Sock) (pcc : PccData) : PccData × Sock :=
  let ivs := pcc.intervals
  let ivs := ivs.set 0 { ivs.getD 0 default with utility := calc_utility pcc.util_func sk pcc (ivs.getD 0 default) }
  let ivs := ivs.set 1 { ivs.getD 1 default with utility := calc_utility pcc.util_func sk pcc (ivs.getD 1 default) }
  let ivs := ivs.set 2 { ivs.getD 2 default with utility := calc_utility pcc.util_func sk pcc (ivs.getD 2 default) }
  let ivs := ivs.set 3 { ivs.getD 3 default with utility := calc_utility pcc.util_func sk pcc (ivs.getD 3 default) }
  let pcc := { pcc with intervals := ivs }
  let nr := pcc_decide_rate pcc
  let new_rate : Nat := nr.1
  let pcc := nr.2
  let pcc :=
    if (new_rate : Int) ≠ pcc.rate then
      pcc_setup_intervals_moving { pcc with moving := true }
    else
      pcc_setup_intervals_probing rand pcc
  let pcc := { pcc with rate := (new_rate : Int) }
  let psk := start_interval sk pcc
  ({ psk.1 with decisions_count := psk.1.decisions_count + 1 }, psk.2)

/-- `pcc_update_step_params`: amplifier / swing-buffer adaptation. -/
def pcc_update_step_params (pcc : PccData) (step : Int) : PccData :=
  if decide (step > 0) = decide (pcc.rate > pcc.last_rate) then
    if pcc.swing_buffer > 0 then { pcc with swing_buffer := pcc.swing_buffer - 1 }
    else { pcc with amplifier := pcc.amplifier + 1 }
  else
    { pcc with swing_buffer := min (pcc.swing_buffer + 1) PCC_MAX_SWING_BUFFER,
               amplifier := PCC_AMP_MIN,
               change_bound := PCC_MIN_CHANGE_BOUND }

/-- `pcc_apply_change_bound`: bound a step to `change_bound`/SCALE of the
current rate, growing the bound each time it is hit.  `change_frac` is
the source's `change_ratio` local. -/
def pcc_apply_change_bound (pcc : PccData) (step : Int) : PccData × Int :=
  if pcc.rate = 0 then (pcc, step)
  else
    let step_sign : Int := if step > 0 then 1 else -1
    let step := step * step_sign
    let change_frac := (PCC_SCALE * step).tdiv pcc.rate
    if change_frac > pcc.change_bound then
      let step := (pcc.rate * pcc.change_bound).tdiv PCC_SCALE
      ({ pcc with change_bound := pcc.change_bound + PCC_CHANGE_BOUND_STEP }, step_sign * step)
    else
      ({ pcc with change_bound := PCC_MIN_CHANGE_BOUND }, step_sign * step)

/-- `pcc_decide_rate_moving`: gradient-ascent candidate rate (returned as
u32, like the C function's return type). -/
def pcc_decide_rate_moving (sk : Sock) (pcc : PccData) : Nat × PccData :=
  let iv := pcc.intervals.getD 0 default
  let prev_utility := iv.utility
  let util := calc_utility pcc.util_func sk pcc iv
  let pcc := { pcc with intervals := pcc.intervals.set 0 { iv with utility := util } }
  let grad := pcc_calc_util_grad pcc.rate util pcc.last_rate prev_utility
  let step := grad * PCC_GRAD_STEP_SIZE
  let pcc := pcc_update_step_params pcc step
  let step := step * pcc.amplifier
  let step := step.tdiv PCC_SCALE
  let ps := pcc_apply_change_bound pcc step
  let pcc := ps.1
  let step := ps.2
  let min_step := (pcc.rate * PCC_MIN_RATE_DIFF_RATIO_FOR_GRAD).tdiv PCC_SCALE
  let min_step := min_step * 11
  let min_step := min_step.tdiv 10
  let step :=
    if step ≥ 0 ∧ step < min_step then min_step
    else if step < 0 ∧ step > -1 * min_step then -1 * min_step
    else step
  (toU32 (pcc.rate + step), pcc)

/-- `pcc_decide_moving`: apply the moving-stage rate, clamp to 2 packets
per rtt, and return to probing when the direction flips (USE_PROBING). -/
def pcc_decide_moving (rand : Nat) (sk : Sock) (pcc : PccData) : PccData × Sock :=
  let nr := pcc_decide_rate_moving sk pcc
  let pcc := nr.2
  let new_rate : Int := (nr.1 : Int)
  let decision := pcc_get_decision pcc nr.1
  let last_decision := pcc.last_decision
  let packet_min_rate : Int :=
    ((1000000 * PCC_RATE_MIN_PACKETS_PER_RTT * sk.mss_cache / pcc_get_rtt sk : Nat) : Int)
  let new_rate := max new_rate packet_min_rate
  let pcc := { pcc with last_rate := pcc.rate, rate := new_rate }
  let pcc :=
    if decision ≠ last_decision then
      pcc_setup_intervals_probing rand { pcc with moving := false }
    else
      pcc_setup_intervals_moving pcc
  start_interval sk pcc

/-- `pcc_decide_slow_start`: keep multiplying the rate by 1.5 while the
utility improves; on the first non-improvement swap back to the previous
rate, leave slow start and set up probing (USE_PROBING).  The dead
`adjust_utility` locals of the source are not modelled. -/
def pcc_decide_slow_start (rand : Nat) (sk : Sock) (pcc : PccData) : PccData × Sock :=
  let iv := pcc.intervals.getD 0 default
  let prev_utility := iv.utility
  let util := calc_utility pcc.util_func sk pcc iv
  let pcc := { pcc with intervals := pcc.intervals.set 0 { iv with utility := util } }
  if util > prev_utility then
    let pcc := { pcc with last_rate := pcc.rate, rate := pcc.rate + pcc.rate.tdiv 2 }
    let iv := pcc.intervals.getD 0 default
    let iv := { iv with utility := util, rate := toU64 pcc.rate }
    let pcc := { pcc with intervals := pcc.intervals.set 0 iv,
                          send_index := 0, recive_index := 0, wait := false }
    start_interval sk pcc
  else
    let pcc := { pcc with last_rate := pcc.rate, rate := pcc.last_rate, start_mode := false }
    let pcc := pcc_setup_intervals_probing rand pcc
    start_interval sk pcc

/-- `send_interval_ended` (predicate part; the write of `packets_ended`
done by the C function on success is performed by the caller).  The u32
difference `data_segs_out - packets_sent_base` lands in a C `int`. -/
def send_interval_ended (iv : PccInterval) (sk : Sock) (pcc : PccData) : Bool :=
  let packets_sent : Int := toI32 (sub32 sk.data_segs_out iv.packets_sent_base)
  if packets_sent < PCC_INTERVAL_MIN_PACKETS then false
  else decide (pcc.packets_counted > iv.packets_sent_base)

/-- `recive_interval_ended` (source spelling): nearly all packets sent in
the interval have been accounted for.  The literal 10 and the u32
subtraction are the source's. -/
def recive_interval_ended (iv : PccInterval) (pcc : PccData) : Bool :=
  iv.packets_ended != 0 && decide (sub32 iv.packets_ended 10 < pcc.packets_counted)

/-- `start_next_send_interval`: advance the send cursor; wait if the ring
is exhausted or the mode uses a single interval. -/
def start_next_send_interval (sk : Sock) (pcc : PccData) : PccData × Sock :=
  let pcc := { pcc with send_index := pcc.send_index + 1 }
  let pcc :=
    if pcc.send_index = (PCC_INTERVALS : Int) ∨ pcc.start_mode = true ∨ pcc.moving = true then
      { pcc with wait := true }
    else pcc
  start_interval sk pcc

/-- `pcc_update_interval`: fold the host's per-sample deltas into the
receiving interval and stamp the receive window edges. -/
def pcc_update_interval (sk : Sock) (pcc : PccData) (iv : PccInterval) : PccInterval :=
  let iv := { iv with recv_end := sk.tcp_mstamp, end_rtt := ((sk.srtt_us >>> 3 : Nat) : Int) }
  let iv :=
    if iv.lost + iv.delivered = 0 then
      { iv with recv_start := sk.tcp_mstamp, start_rtt := ((sk.srtt_us >>> 3 : Nat) : Int) }
    else iv
  { iv with lost := (iv.lost + sub32 sk.lost pcc.lost_base) % 4294967296,
            delivered := (iv.delivered + sub32 sk.delivered pcc.delivered_base) % 4294967296 }

/-- Send-side progression of `pcc_process` (the `if (!pcc->wait)` block):
when the sending interval has ended, stamp `packets_ended` (the write the
C code performs inside `send_interval_ended`) and `send_end`, and start
the next send interval. -/
def pcc_send_phase (sk : Sock) (pcc : PccData) : PccData × Sock :=
  if pcc.wait = false then
    let iv := pcc.intervals.getD pcc.send_index.toNat default
    if send_interval_ended iv sk pcc then
      let iv := { iv with packets_ended := sk.data_segs_out, send_end := sk.tcp_mstamp }
      let pcc := { pcc with intervals := pcc.intervals.set pcc.send_index.toNat iv }
      start_next_send_interval sk pcc
    else (pcc, sk)
  else (pcc, sk)

/-- Receive-side completion of `pcc_process` (the body of the
`recive_interval_ended` branch): advance the receive cursor and dispatch
to the mode's decider. -/
def pcc_recv_dispatch (rand : Nat) (sk : Sock) (pcc : PccData) : PccData × Sock :=
  let pcc := { pcc with recive_index := pcc.recive_index + 1 }
  if pcc.start_mode = true then pcc_decide_slow_start rand sk pcc
  else if pcc.moving = true then pcc_decide_moving rand sk pcc
  else if pcc.recive_index = (PCC_INTERVALS : Int) then pcc_decide rand sk pcc
  else (pcc, sk)

/-- `pcc_process`: the per-sample entry point (`cong_control` calls it via
`pcc_process_sample`). -/
def pcc_process (rand : Nat) (sk : Sock) (pcc : PccData) : PccData × Sock :=
  if pcc_valid pcc = false then (pcc, sk)
  else
    let sk := pcc_set_cwnd sk
    if pcc.loss_state = true then
      ({ pcc with lost_base := sk.lost, delivered_base := sk.delivered }, sk)
    else
      let ps := pcc_send_phase sk pcc
      let pcc := ps.1
      let sk := ps.2
      let index := pcc.recive_index
      let before := pcc.packets_counted
      let pcc := { pcc with packets_counted := sub32 ((sk.delivered + sk.lost) % 4294967296) pcc.spare }
      let iv : PccInterval := pcc.intervals.getD index.toNat default
      if iv.packets_sent_base = 0 then
        ({ pcc with lost_base := sk.lost, delivered_base := sk.delivered }, sk)
      else
        let pcc :=
          if before > (10 + iv.packets_sent_base) % 4294967296 then
            { pcc with intervals := pcc.intervals.set index.toNat (pcc_update_interval sk pcc iv) }
          else pcc
        let iv := pcc.intervals.getD index.toNat default
        let ps :=
          if recive_interval_ended iv pcc then pcc_recv_dispatch rand sk pcc
          else (pcc, sk)
        ({ ps.1 with lost_base := ps.2.lost, delivered_base := ps.2.delivered }, ps.2)

/-- `pcc_init`: fresh controller state.  The ring is allocated zeroed (the
source allocates `PCC_INTERVALS*2` slots; only the first 4 are ever
used, so the model keeps 4).  The Vivace utility is the one bound. -/
def pcc_init (rand : Nat) (sk : Sock) : PccData × Sock :=
  let pcc : PccData := {
    intervals := List.replicate PCC_INTERVALS default,
    send_index := 0, recive_index := 0,
    rate := (PCC_RATE_MIN : Int) * 512,
    last_rate := (PCC_RATE_MIN : Int) * 512,
    util_func := .vivace,
    start_mode := true, moving := false, loss_state := false, wait := false,
    last_decision := .rate_up,
    lost_base := 0, delivered_base := 0,
    decisions_count := 0, packets_counted := 0, spare := 0,
    amplifier := PCC_AMP_MIN, swing_buffer := 0, change_bound := PCC_MIN_CHANGE_BOUND }
  let pcc := { pcc with intervals := pcc.intervals.set 0 { (pcc.intervals.getD 0 default) with utility := S64_MIN } }
  let pcc := pcc_setup_intervals_probing rand pcc
  start_interval sk pcc

/-- `pcc_set_state`: the loss gate.  State 4 is the host's loss-recovery
state; on exit the counters are reconciled into `spare` (all in u32
arithmetic through an s32 local, hence the wraps). -/
def pcc_set_state (rand : Nat) (sk : Sock) (new_state : Nat) (pcc : PccData) : PccData × Sock :=
  if pcc_valid pcc = false then (pcc, sk)
  else if pcc.loss_state = true ∧ new_state ≠ 4 then
    let spare_delta : Int :=
      toI32 (sub32 (sub32 ((sk.delivered + sk.lost + sk.in_flight) % 4294967296) sk.data_segs_out) pcc.spare)
    let pcc := { pcc with spare := toU32 ((pcc.spare : Int) + spare_delta), loss_state := false }
    let pcc := pcc_setup_intervals_probing rand pcc
    start_interval sk pcc
  else if pcc.loss_state = false ∧ new_state = 4 then
    let pcc := { pcc with loss_state := true, wait := true }
    start_interval sk pcc
  else (pcc, sk)

/-! ## Helper lemmas -/

lemma list_len4 {α : Type} (l : List α) (h : l.length = 4) : ∃ a b c d, l = [a, b, c, d] := by
  rcases l with - | ⟨a, l⟩
  · simp at h
  rcases l with - | ⟨b, l⟩
  · simp at h
  rcases l with - | ⟨c, l⟩
  · simp at h
  rcases l with - | ⟨d, l⟩
  · simp at h
  rcases l with - | ⟨e, l⟩
  · exact ⟨a, b, c, d, rfl⟩
  · simp at h

/-- Truncating division lands strictly inside `(-c, c)` exactly when the
dividend's magnitude is below `c` times the (positive) divisor. -/
lemma tdiv_window_iff (a r c : Int) (hr : 0 < r) (hc : 0 < c) :
    (a.tdiv r < c ∧ a.tdiv r > -1 * c) ↔ |a| < c * r := by
  rcases le_or_lt 0 a with ha | ha
  · rw [Int.tdiv_eq_ediv ha (le_of_lt hr), abs_of_nonneg ha]
    have hnn : 0 ≤ a / r := Int.ediv_nonneg ha (le_of_lt hr)
    constructor
    · rintro ⟨h1, -⟩
      exact (Int.ediv_lt_iff_lt_mul hr).mp h1
    · intro h
      exact ⟨(Int.ediv_lt_iff_lt_mul hr).mpr h, by linarith⟩
  · have hna : 0 ≤ -a := by omega
    have hrw : a.tdiv r = -((-a) / r) := by
      rw [← Int.tdiv_eq_ediv hna (le_of_lt hr), Int.neg_tdiv, neg_neg]
    rw [hrw, abs_of_neg ha]
    have hnn : 0 ≤ (-a) / r := Int.ediv_nonneg hna (le_of_lt hr)
    constructor
    · rintro ⟨-, h2⟩
      have : (-a) / r < c := by linarith
      exact (Int.ediv_lt_iff_lt_mul hr).mp this
    · intro h
      have : (-a) / r < c := (Int.ediv_lt_iff_lt_mul hr).mpr h
      exact ⟨by linarith, by linarith⟩

/-! ## C3 -/

/-- C3 counterexample: `pcc_decide_rate_moving` calls
`pcc_calc_util_grad(pcc->rate, utility, pcc->last_rate, prev_utility)`,
i.e. the NEW point is the first argument pair, and the noise guard
divides by the first rate.  With `rate_prev = 100`, `rate_new = 102`,
`util_prev = 0`, `util_new = 2`, the claimed threshold relative to
`rate_prev` is met (`|102 - 100| / 100 = 2%`), so the claim demands the
gradient `SCALE*SCALE*(2 - 0) / (102 - 100) = 10^6`; but the code's
guard computes `1000*(100 - 102) / 102 = -19`, inside `(-20, 20)`, and
returns 0. -/
theorem C3_counterexample :
    20 * 100 ≤ 1000 * |(102 : Int) - 100| ∧
    pcc_calc_util_grad 102 2 100 0 = 0 ∧
    (PCC_SCALE * PCC_SCALE * ((2 : Int) - 0)).tdiv ((102 : Int) - 100) ≠ 0 := by
  refine ⟨by norm_num, ?_, by decide⟩
  decide

/-- C3 (amended): the moving decider passes the NEW point (the current
rate `pcc->rate` and the freshly computed utility) as
`pcc_calc_util_grad`'s first pair and the previous point
(`pcc->last_rate`, the stored utility) as its second, and the integer
noise guard `SCALE*(rate_2 - rate_1)/rate_1` divides by the FIRST rate;
so the gradient equals `SCALE*SCALE*(util_new - util_prev) /
(rate_new - rate_prev)` exactly when the relative rate difference is at
least 2% of `rate_new` (not of `rate_prev` as claimed — see
`C3_counterexample`), and is 0 otherwise, for every `rate_new > 0`.
The C truncating division makes the guard `(-20, 20)` window equivalent
to `1000*|rate_new - rate_prev| < 20*rate_new`.  Status: corrected. -/
theorem C3_util_grad (rate_new util_new rate_prev util_prev : Int) (h : 0 < rate_new) :
    pcc_calc_util_grad rate_new util_new rate_prev util_prev =
      if 20 * rate_new ≤ 1000 * |rate_new - rate_prev| then
        (PCC_SCALE * PCC_SCALE * (util_new - util_prev)).tdiv (rate_new - rate_prev)
      else 0 := by
  rw [abs_sub_comm]
  rw [show (PCC_SCALE * PCC_SCALE * (util_new - util_prev)).tdiv (rate_new - rate_prev) =
      (PCC_SCALE * PCC_SCALE * (util_prev - util_new)).tdiv (rate_prev - rate_new) from by
    rw [show rate_new - rate_prev = -(rate_prev - rate_new) from by ring,
      show PCC_SCALE * PCC_SCALE * (util_new - util_prev) =
        -(PCC_SCALE * PCC_SCALE * (util_prev - util_new)) from by ring,
      Int.neg_tdiv, Int.tdiv_neg, neg_neg]]
  have hw := tdiv_window_iff (1000 * (rate_prev - rate_new)) rate_new 20 h (by norm_num)
  rw [abs_mul] at hw
  simp only [pcc_calc_util_grad, PCC_SCALE, PCC_MIN_RATE_DIFF_RATIO_FOR_GRAD]
  by_cases hcond : 20 * rate_new ≤ 1000 * |rate_prev - rate_new|
  · rw [if_pos hcond, if_neg]
    intro hq
    have := hw.mp hq
    have habs : |(1000 : Int)| = 1000 := by norm_num
    rw [habs] at this
    linarith
  · rw [if_neg hcond, if_pos]
    have habs : |(1000 : Int)| = 1000 := by norm_num
    push_neg at hcond
    exact hw.mpr (by rw [habs]; linarith)

/-- Witness for the amended C3 at a concrete input (a 10% rate gap, so
the guard passes and the gradient is the truncated quotient). -/
theorem C3_util_grad_witness :
    (0 : Int) < 1000 ∧
    pcc_calc_util_grad 1000 50 1100 0 =
      (if 20 * 1000 ≤ 1000 * |(1000 : Int) - 1100| then
        (PCC_SCALE * PCC_SCALE * ((50 : Int) - 0)).tdiv ((1000 : Int) - 1100)
      else 0) :=
  ⟨by norm_num, C3_util_grad 1000 50 1100 0 (by norm_num)⟩

/-! ## C8 -/

/-- C8: degenerate intervals are handled silently by the utility
functions: Allegro assigns the sentinel `S64_MIN` to an interval with
`lost + delivered = 0`, and Vivace assigns 0 (not the sentinel) to an
interval with `delivered = 0`; both simply return a value (no error
channel exists in either function). Status: confirmed. -/
theorem C8_degenerate_utility (sk : Sock) (pcc : PccData) (iv jv : PccInterval) :
    (iv.lost + iv.delivered = 0 → pcc_calc_utility_allegro sk iv = S64_MIN) ∧
    (jv.delivered = 0 → pcc_calc_utility_vivace sk pcc jv = 0) := by
  constructor
  · intro h
    have hl : iv.lost = 0 := by omega
    have hd : iv.delivered = 0 := by omega
    simp [pcc_calc_utility_allegro, hl, hd]
  · intro h
    simp [pcc_calc_utility_vivace, h]

/-- Witness for C8 at a concrete input (the all-zero interval). -/
theorem C8_degenerate_utility_witness :
    pcc_calc_utility_allegro default default = S64_MIN ∧
    pcc_calc_utility_vivace default default default = 0 :=
  ⟨(C8_degenerate_utility default default default default).1 (by decide),
   (C8_degenerate_utility default default default default).2 (by decide)⟩

/-! ## C9 -/

/-- C9: while the controller is in the Loss state, a call to `on_sample`
(`pcc_process`) leaves every interval field, the rate, and both ring
cursors unchanged; only the cwnd (written by `pcc_set_cwnd`) and the
`lost_base`/`delivered_base` baselines are updated.  The returned
controller is the old one with exactly the two baselines replaced, and
the returned socket differs from the input only in `snd_cwnd`.
Status: confirmed. -/
theorem C9_loss_frame (rand : Nat) (sk : Sock) (pcc : PccData)
    (hv : pcc_valid pcc = true) (hl : pcc.loss_state = true) :
    pcc_process rand sk pcc =
      ({ pcc with lost_base := sk.lost, delivered_base := sk.delivered }, pcc_set_cwnd sk) := by
  simp only [pcc_process, hv, hl, Bool.true_eq_false, if_false, if_true, pcc_set_cwnd]

/-- Witness for C9 at a concrete loss-state controller. -/
def pccC9 : PccData :=
  { intervals := [{ (default : PccInterval) with rate := 524288 }, default, default, default],
    send_index := 0, recive_index := 0, rate := 524288, last_rate := 524288,
    util_func := .vivace, start_mode := false, moving := false, loss_state := true,
    wait := true, last_decision := .rate_up, lost_base := 3, delivered_base := 9,
    decisions_count := 0, packets_counted := 12, spare := 0,
    amplifier := 2, swing_buffer := 0, change_bound := 100 }

/-- Witness socket for C9. -/
def skC9 : Sock :=
  { srtt_us := 80000, mss_cache := 1000, data_segs_out := 60, delivered := 20, lost := 5,
    in_flight := 3, tcp_mstamp := 1000000, snd_cwnd_clamp := 1000,
    sk_max_pacing_rate := 1000000000, sk_pacing_rate := 524288, snd_cwnd := 10 }

theorem C9_loss_frame_witness :
    pcc_process 7 skC9 pccC9 =
      ({ pccC9 with lost_base := skC9.lost, delivered_base := skC9.delivered }, pcc_set_cwnd skC9) :=
  C9_loss_frame 7 skC9 pccC9 (by decide) (by decide)

/-! ## C6 -/

/-- Controller state for the C6 counterexample: a moving-mode state whose
rate is exactly `MIN_RATE` and whose just-finished interval reports a
worse utility than the previous rate saw, so gradient descent steps the
rate downward, below `MIN_RATE` (the code never clamps `pcc->rate`
itself, only the pacing rate passed to the socket). -/
def ivC6 : PccInterval :=
  { (default : PccInterval) with rate := 1024, packets_sent_base := 1, packets_ended := 60, utility := -1000 }

def pccC6 : PccData :=
  { intervals := [ivC6, default, default, default],
    send_index := 1, recive_index := 0, rate := 1024, last_rate := 2048,
    util_func := .vivace, start_mode := false, moving := true, loss_state := false,
    wait := true, last_decision := .rate_up, lost_base := 0, delivered_base := 0,
    decisions_count := 0, packets_counted := 5, spare := 0,
    amplifier := 2, swing_buffer := 0, change_bound := 100 }

/-- Host sample for the C6 counterexample; the huge srtt makes the
2-packets-per-rtt floor equal to 0. -/
def skC6 : Sock :=
  { srtt_us := 4000000000, mss_cache := 100, data_segs_out := 60, delivered := 100, lost := 0,
    in_flight := 0, tcp_mstamp := 1000000, snd_cwnd_clamp := 1000,
    sk_max_pacing_rate := 1000000000, sk_pacing_rate := 1024, snd_cwnd := 10 }

/-- C6 counterexample: a state whose rate satisfies the claimed invariant
`rate ≥ MIN_RATE = 1024`, yet after one `pcc_process` call the
controller's rate is 922 < 1024.  The claim as stated is false: the
moving-stage decision assigns `pcc->rate` without any `MIN_RATE` clamp
(only the pacing rate programmed in `start_interval` is clamped). -/
theorem C6_counterexample :
    (1024 : Int) ≤ pccC6.rate ∧ (pcc_process 0 skC6 pccC6).1.rate < 1024 := by decide

/-- C6 amended: the `MIN_RATE` clamp exists only on the pacer programming
path: whenever an interval is (re)started, the pacing rate written to
the host is at least `min MIN_RATE host.max_pacing_rate` (i.e. at least
`MIN_RATE = 1024` whenever the host's pacing cap allows it); the
controller-internal `rate` field can drop below `MIN_RATE`.
Status of the original claim: corrected. -/
theorem C6_pacing_min (sk : Sock) (pcc : PccData) :
    min PCC_RATE_MIN sk.sk_max_pacing_rate ≤ ((start_interval sk pcc).2).sk_pacing_rate := by
  by_cases hw : pcc.wait = false
  · simp only [start_interval, hw, if_true, pcc_set_cwnd]
    exact min_le_min (le_max_right _ _) le_rfl
  · simp only [start_interval, hw, if_false, pcc_set_cwnd]
    exact min_le_min (le_max_right _ _) le_rfl

/-! ## C1 -/

/-- The cursor invariant exactly as claim C1 states it: both cursors in
`[0, 4)`, `recv_index ≤ send_index` while probing, and both cursors 0 in
slow-start and moving modes. -/
def claimed_cursor_inv (p : PccData) : Prop :=
  (0 ≤ p.send_index ∧ p.send_index < 4) ∧
  (0 ≤ p.recive_index ∧ p.recive_index < 4) ∧
  (p.start_mode = false ∧ p.moving = false → p.recive_index ≤ p.send_index) ∧
  ((p.start_mode = true ∨ p.moving = true) → p.send_index = 0 ∧ p.recive_index = 0)

instance (p : PccData) : Decidable (claimed_cursor_inv p) := by
  unfold claimed_cursor_inv
  infer_instance

/-- Controller state for the C1 counterexample: a slow-start state with
both cursors 0 whose single interval has sent enough packets for the
send side to finish while the receive side has not. -/
def pccC1 : PccData :=
  { intervals := [{ (default : PccInterval) with rate := 550502, packets_sent_base := 1 },
                  default, default, default],
    send_index := 0, recive_index := 0, rate := 524288, last_rate := 524288,
    util_func := .vivace, start_mode := true, moving := false, loss_state := false,
    wait := false, last_decision := .rate_up, lost_base := 0, delivered_base := 0,
    decisions_count := 0, packets_counted := 5, spare := 0,
    amplifier := 2, swing_buffer := 0, change_bound := 100 }

/-- Host sample for the C1 counterexample. -/
def skC1 : Sock :=
  { srtt_us := 80000, mss_cache := 1000, data_segs_out := 60, delivered := 2, lost := 0,
    in_flight := 0, tcp_mstamp := 1000000, snd_cwnd_clamp := 1000,
    sk_max_pacing_rate := 1000000000, sk_pacing_rate := 524288, snd_cwnd := 10 }

/-- C1 counterexample: from a slow-start state satisfying the claimed
cursor invariant (both cursors 0), one `pcc_process` call in which the
send interval finishes but the receive interval does not leaves
`send_index = 1` while still in slow-start mode, violating the claimed
"both equal to 0 in slow-start and moving modes" (the send cursor
advances to 1 and the controller merely waits). -/
theorem C1_counterexample :
    claimed_cursor_inv pccC1 ∧ ¬ claimed_cursor_inv (pcc_process 0 skC1 pccC1).1 := by decide

/-! ## C2 -/

/-- Interval with a positive Vivace utility (rate 19, one delivery, no
loss, flat rtt) for the C2 counterexample. -/
def ivC2a : PccInterval :=
  { (default : PccInterval) with
      rate := 19, delivered := 1, recv_end := 1000, send_end := 1000,
      start_rtt := 5000, end_rtt := 5000, packets_sent_base := 1 }

/-- Interval with zero Vivace utility (no delivery) at rate 18 for the C2
counterexample. -/
def ivC2b : PccInterval :=
  { (default : PccInterval) with rate := 18, packets_sent_base := 1 }

/-- Probing state whose paired rates are 19/18: at rate 19 the +5% and
-5% probing perturbations collapse to 19 and 18, so the winning rate of
an agreeing vote can equal the current rate. -/
def pccC2 : PccData :=
  { intervals := [ivC2a, ivC2b, ivC2a, ivC2b],
    send_index := 4, recive_index := 3, rate := 19, last_rate := 19,
    util_func := .vivace, start_mode := false, moving := false, loss_state := false,
    wait := true, last_decision := .rate_up, lost_base := 0, delivered_base := 0,
    decisions_count := 0, packets_counted := 5, spare := 0,
    amplifier := 2, swing_buffer := 0, change_bound := 100 }

/-- Host sample for the C2 counterexample. -/
def skC2 : Sock :=
  { srtt_us := 80000, mss_cache := 1000, data_segs_out := 60, delivered := 2, lost := 0,
    in_flight := 0, tcp_mstamp := 1000000, snd_cwnd_clamp := 1000,
    sk_max_pacing_rate := 1000000000, sk_pacing_rate := 19, snd_cwnd := 10 }

/-- C2 counterexample: on `pccC2` the two pairs agree by the claim's own
formula (`A = B` and `intervals[0].rate = intervals[2].rate`, evaluated
on the utilities the decider computes), yet `pcc_decide` does NOT switch
the controller to Moving mode: the winning rate (19) equals the current
rate, and the code keys the Moving transition on `new_rate != rate`,
not on agreement.  It re-lays probing intervals instead. -/
theorem C2_counterexample :
    (((decide (calc_utility pccC2.util_func skC2 pccC2 (pccC2.intervals.getD 0 default) >
               calc_utility pccC2.util_func skC2 pccC2 (pccC2.intervals.getD 1 default)) ==
       decide (calc_utility pccC2.util_func skC2 pccC2 (pccC2.intervals.getD 2 default) >
               calc_utility pccC2.util_func skC2 pccC2 (pccC2.intervals.getD 3 default))) ==
      decide ((pccC2.intervals.getD 0 default).rate = (pccC2.intervals.getD 2 default).rate)) = true) ∧
    (pcc_decide 0 skC2 pccC2).1.moving = false ∧
    (pcc_decide 0 skC2 pccC2).1.rate = pccC2.rate := by decide

/-! ## C7 -/

/-- Probing state for the C7 counterexample: the single started interval
has sent 59 >= 50 packets, but `packets_counted` is still 0 (stale), so
the send interval does not end on the first call; the first call
refreshes `packets_counted` to 2 > 1, so an identical second sample ends
it. -/
def pccC7 : PccData :=
  { intervals := [{ (default : PccInterval) with rate := 524288, packets_sent_base := 1 },
                  default, default, default],
    send_index := 0, recive_index := 0, rate := 524288, last_rate := 524288,
    util_func := .vivace, start_mode := false, moving := false, loss_state := false,
    wait := false, last_decision := .rate_up, lost_base := 0, delivered_base := 0,
    decisions_count := 0, packets_counted := 0, spare := 0,
    amplifier := 2, swing_buffer := 0, change_bound := 100 }

/-- Host sample for the C7 counterexample (replayed twice, unchanged). -/
def skC7 : Sock :=
  { srtt_us := 80000, mss_cache := 1000, data_segs_out := 60, delivered := 2, lost := 0,
    in_flight := 0, tcp_mstamp := 1000000, snd_cwnd_clamp := 1000,
    sk_max_pacing_rate := 1000000000, sk_pacing_rate := 524288, snd_cwnd := 10 }

/-- C7 counterexample: replaying the identical host sample twice is not
idempotent.  The first `pcc_process` call leaves `send_index = 0` (the
send-side check ran with the stale `packets_counted = 0`), but the
second call with the very same sample ends the send interval and
advances `send_index` to 1, changing the interval-ring state. -/
theorem C7_counterexample :
    (pcc_process 0 skC7 pccC7).1.send_index = 0 ∧
    (pcc_process 0 (pcc_process 0 skC7 pccC7).2 (pcc_process 0 skC7 pccC7).1).1.send_index = 1 := by
  decide

/-! ## C4 -/

/-- C4: when a slow-start interval completes (`pcc_decide_slow_start`):
if its computed utility strictly exceeds the previous utility, the
controller records `last_rate = rate`, grows the rate by half
(`rate += rate/2`, C truncating division), stores the new utility in
interval 0 as the next baseline, and relaunches with
`send_index = recv_index = 0` and `wait = false` while staying in
slow-start; otherwise it swaps `rate` and `last_rate` (reverting to the
previous rate), clears `start_mode`, and enters probing
(`moving` stays false, probing intervals are laid out, cursors reset).
Status: confirmed. -/
theorem C4_slow_start_decision (rand : Nat) (sk : Sock) (pcc : PccData)
    (h4 : pcc.intervals.length = 4) (hm : pcc.moving = false) :
    (calc_utility pcc.util_func sk pcc (pcc.intervals.getD 0 default) >
        (pcc.intervals.getD 0 default).utility →
      (pcc_decide_slow_start rand sk pcc).1.last_rate = pcc.rate ∧
      (pcc_decide_slow_start rand sk pcc).1.rate = pcc.rate + pcc.rate.tdiv 2 ∧
      ((pcc_decide_slow_start rand sk pcc).1.intervals.getD 0 default).utility =
        calc_utility pcc.util_func sk pcc (pcc.intervals.getD 0 default) ∧
      (pcc_decide_slow_start rand sk pcc).1.send_index = 0 ∧
      (pcc_decide_slow_start rand sk pcc).1.recive_index = 0 ∧
      (pcc_decide_slow_start rand sk pcc).1.wait = false ∧
      (pcc_decide_slow_start rand sk pcc).1.start_mode = pcc.start_mode) ∧
    (¬ calc_utility pcc.util_func sk pcc (pcc.intervals.getD 0 default) >
        (pcc.intervals.getD 0 default).utility →
      (pcc_decide_slow_start rand sk pcc).1.rate = pcc.last_rate ∧
      (pcc_decide_slow_start rand sk pcc).1.last_rate = pcc.rate ∧
      (pcc_decide_slow_start rand sk pcc).1.start_mode = false ∧
      (pcc_decide_slow_start rand sk pcc).1.moving = false ∧
      (pcc_decide_slow_start rand sk pcc).1.send_index = 0 ∧
      (pcc_decide_slow_start rand sk pcc).1.recive_index = 0 ∧
      (pcc_decide_slow_start rand sk pcc).1.wait = false) := by
  obtain ⟨a, b, c, d, hiv⟩ := list_len4 pcc.intervals h4
  constructor
  · intro himp
    rw [hiv] at himp ⊢
    simp only [List.getD_cons_zero] at himp ⊢
    simp only [pcc_decide_slow_start, hiv, List.getD_cons_zero, List.set_cons_zero,
      start_interval, himp]
    simp
  · intro himp
    rw [hiv] at himp
    simp only [List.getD_cons_zero] at himp
    simp only [pcc_decide_slow_start, hiv, List.getD_cons_zero, List.set_cons_zero,
      start_interval, himp, pcc_setup_intervals_probing]
    simp [hm]

/-- Slow-start interval for the C4 witness (no delivery yet, so the
Vivace utility is 0, above the `S64_MIN` baseline). -/
def ivC4 : PccInterval :=
  { (default : PccInterval) with rate := 550502, packets_sent_base := 1, utility := S64_MIN }

/-- Controller state for the C4 witness. -/
def pccC4 : PccData :=
  { intervals := [ivC4, default, default, default],
    send_index := 1, recive_index := 1, rate := 524288, last_rate := 524288,
    util_func := .vivace, start_mode := true, moving := false, loss_state := false,
    wait := true, last_decision := .rate_up, lost_base := 0, delivered_base := 0,
    decisions_count := 0, packets_counted := 5, spare := 0,
    amplifier := 2, swing_buffer := 0, change_bound := 100 }

/-- Host sample for the C4 witness. -/
def skC4 : Sock :=
  { srtt_us := 80000, mss_cache := 1000, data_segs_out := 60, delivered := 2, lost := 0,
    in_flight := 0, tcp_mstamp := 1000000, snd_cwnd_clamp := 1000,
    sk_max_pacing_rate := 1000000000, sk_pacing_rate := 524288, snd_cwnd := 10 }

/-- Witness for C4 at a concrete improving slow-start state. -/
theorem C4_slow_start_decision_witness :
    (pcc_decide_slow_start 0 skC4 pccC4).1.rate = pccC4.rate + pccC4.rate.tdiv 2 ∧
    (pcc_decide_slow_start 0 skC4 pccC4).1.last_rate = pccC4.rate :=
  ⟨((C4_slow_start_decision 0 skC4 pccC4 (by decide) (by decide)).1 (by decide)).2.1,
   ((C4_slow_start_decision 0 skC4 pccC4 (by decide) (by decide)).1 (by decide)).1⟩

/-! ## C5 -/

lemma toU32_int (x : Int) : ((toU32 x : Nat) : Int) = x % 4294967296 := by
  unfold toU32
  rw [Int.toNat_of_nonneg (Int.emod_nonneg _ (by norm_num))]

/-- Net effect of the loss-exit spare rebase, mod `2^32`: adding the s32
delta `(s - dso) - sp` to `sp` leaves `s - dso`. -/
lemma spare_rebase (s dso sp : Nat) :
    ((toU32 ((sp : Int) + toI32 (sub32 (sub32 (s % 4294967296) dso) sp)) : Nat) : Int) % 4294967296
      = ((s : Int) - dso) % 4294967296 := by
  rw [toU32_int]
  unfold toI32 sub32
  split_ifs <;> omega

/-- C5: on the host-state transition out of loss recovery
(`pcc_set_state` with `loss_state` true and `new_state != 4`), the
controller adds `host.delivered + host.lost + host.in_flight -
host.data_segs_out - spare` to `spare` (u32 arithmetic through an s32
local, so the conclusion is stated mod `2^32`: the new `spare` is
`delivered + lost + in_flight - data_segs_out`), clears the loss state,
re-lays the four probing intervals (cursors reset, paired +-5% rates by
the random bits), and restarts an interval, reprogramming the pacer with
interval 0's clamped target rate. Status: confirmed. -/
theorem C5_loss_exit (rand : Nat) (sk : Sock) (new_state : Nat) (pcc : PccData)
    (hv : pcc_valid pcc = true) (h4 : pcc.intervals.length = 4)
    (hl : pcc.loss_state = true) (hs : new_state ≠ 4) :
    (((pcc_set_state rand sk new_state pcc).1.spare : Int) % 4294967296 =
      ((sk.delivered : Int) + sk.lost + sk.in_flight - sk.data_segs_out) % 4294967296) ∧
    (pcc_set_state rand sk new_state pcc).1.loss_state = false ∧
    (pcc_set_state rand sk new_state pcc).1.send_index = 0 ∧
    (pcc_set_state rand sk new_state pcc).1.recive_index = 0 ∧
    ((pcc_set_state rand sk new_state pcc).1.intervals.getD 0 default).rate =
      (if (rand >>> 0) % 2 = 1 then
        toU64 (pcc.rate * ((PCC_PROBING_EPS_PART : Int) - (PCC_PROBING_EPS : Int))) / PCC_PROBING_EPS_PART
      else
        toU64 (pcc.rate * ((PCC_PROBING_EPS_PART : Int) + (PCC_PROBING_EPS : Int))) / PCC_PROBING_EPS_PART) ∧
    ((pcc_set_state rand sk new_state pcc).1.intervals.getD 2 default).rate =
      (if (rand >>> 1) % 2 = 1 then
        toU64 (pcc.rate * ((PCC_PROBING_EPS_PART : Int) - (PCC_PROBING_EPS : Int))) / PCC_PROBING_EPS_PART
      else
        toU64 (pcc.rate * ((PCC_PROBING_EPS_PART : Int) + (PCC_PROBING_EPS : Int))) / PCC_PROBING_EPS_PART) ∧
    (pcc_set_state rand sk new_state pcc).2.sk_pacing_rate =
      min (max ((pcc_set_state rand sk new_state pcc).1.intervals.getD 0 default).rate PCC_RATE_MIN)
        sk.sk_max_pacing_rate := by
  obtain ⟨a, b, c, d, hiv⟩ := list_len4 pcc.intervals h4
  have hcond : pcc.loss_state = true ∧ new_state ≠ 4 := ⟨hl, hs⟩
  simp only [pcc_set_state, hv, Bool.true_eq_false, if_false]
  rw [if_pos hcond]
  simp only [pcc_setup_intervals_probing, start_interval, hiv, List.getD_cons_zero,
    List.set_cons_zero, pcc_set_cwnd]
  refine ⟨?_, by simp, by simp, by simp, by simp, by simp, by simp⟩
  have hsum : ((sk.delivered + sk.lost + sk.in_flight : Nat) : Int) % 4294967296 =
      ((sk.delivered : Int) + sk.lost + sk.in_flight) % 4294967296 := by
    push_cast
    ring_nf
  simpa [hsum] using spare_rebase (sk.delivered + sk.lost + sk.in_flight) sk.data_segs_out pcc.spare

/-- Loss-state controller for the C5 witness. -/
def pccC5 : PccData :=
  { intervals := [{ (default : PccInterval) with rate := 524288 }, default, default, default],
    send_index := 2, recive_index := 1, rate := 524288, last_rate := 524288,
    util_func := .vivace, start_mode := false, moving := false, loss_state := true,
    wait := true, last_decision := .rate_up, lost_base := 0, delivered_base := 0,
    decisions_count := 0, packets_counted := 40, spare := 3,
    amplifier := 2, swing_buffer := 0, change_bound := 100 }

/-- Host sample for the C5 witness. -/
def skC5 : Sock :=
  { srtt_us := 80000, mss_cache := 1000, data_segs_out := 60, delivered := 30, lost := 10,
    in_flight := 25, tcp_mstamp := 1000000, snd_cwnd_clamp := 1000,
    sk_max_pacing_rate := 1000000000, sk_pacing_rate := 524288, snd_cwnd := 10 }

/-- Witness for C5 at a concrete loss-exit transition. -/
theorem C5_loss_exit_witness :
    (((pcc_set_state 3 skC5 0 pccC5).1.spare : Int) % 4294967296 =
      ((skC5.delivered : Int) + skC5.lost + skC5.in_flight - skC5.data_segs_out) % 4294967296) ∧
    (pcc_set_state 3 skC5 0 pccC5).1.loss_state = false :=
  ⟨(C5_loss_exit 3 skC5 0 pccC5 (by decide) (by decide) (by decide) (by decide)).1,
   (C5_loss_exit 3 skC5 0 pccC5 (by decide) (by decide) (by decide) (by decide)).2.1⟩

/-- C2 amended: in the probing decider run over the four computed
utilities, the two pairs agree exactly when
`!((A == B) XOR (intervals[0].rate == intervals[2].rate))` with
`A = util[0] > util[1]`, `B = util[2] > util[3]` (this formula is the
code's, and the agreement hypothesis below is stated with it).  On
every agreement the decider sets `last_rate` to the winning rate of the
second pair, copies the winning utility into `intervals[0].utility` as
the moving-stage seed, and restarts with both cursors at 0 and `wait`
cleared; but it switches to Moving mode (with the winning rate
installed) only when the (u32-truncated) winning rate differs from the
current rate.  When they coincide (possible for tiny rates where the
+-5% perturbation collapses, see the counterexample) it keeps the rate
and Moving flag and re-lays probing intervals, whose slot 0 and slot 2
rates carry the +-5% pattern drawn from the random bits.  On
disagreement it keeps the current rate and re-lays probing intervals
(this needs the current rate to fit u32, since the decider's return type
truncates it).  Status: corrected. -/
theorem C2_probing_decision (rand : Nat) (sk : Sock) (pcc : PccData)
    (h4 : pcc.intervals.length = 4) (hr0 : 0 ≤ pcc.rate) (hr32 : pcc.rate < 4294967296) :
    (((decide (calc_utility pcc.util_func sk pcc (pcc.intervals.getD 0 default) >
                calc_utility pcc.util_func sk pcc (pcc.intervals.getD 1 default)) ==
        decide (calc_utility pcc.util_func sk pcc (pcc.intervals.getD 2 default) >
                calc_utility pcc.util_func sk pcc (pcc.intervals.getD 3 default))) ==
       decide ((pcc.intervals.getD 0 default).rate = (pcc.intervals.getD 2 default).rate)) = true →
      (pcc_decide rand sk pcc).1.last_rate =
        toI64 (if calc_utility pcc.util_func sk pcc (pcc.intervals.getD 2 default) >
                  calc_utility pcc.util_func sk pcc (pcc.intervals.getD 3 default) then
                (pcc.intervals.getD 2 default).rate
              else (pcc.intervals.getD 3 default).rate) ∧
      ((pcc_decide rand sk pcc).1.intervals.getD 0 default).utility =
        (if calc_utility pcc.util_func sk pcc (pcc.intervals.getD 2 default) >
            calc_utility pcc.util_func sk pcc (pcc.intervals.getD 3 default) then
          calc_utility pcc.util_func sk pcc (pcc.intervals.getD 2 default)
        else calc_utility pcc.util_func sk pcc (pcc.intervals.getD 3 default)) ∧
      (pcc_decide rand sk pcc).1.send_index = 0 ∧
      (pcc_decide rand sk pcc).1.recive_index = 0 ∧
      (pcc_decide rand sk pcc).1.wait = false ∧
      ((u64toU32 (if calc_utility pcc.util_func sk pcc (pcc.intervals.getD 2 default) >
                      calc_utility pcc.util_func sk pcc (pcc.intervals.getD 3 default) then
                    (pcc.intervals.getD 2 default).rate
                  else (pcc.intervals.getD 3 default).rate) : Int) ≠ pcc.rate →
        (pcc_decide rand sk pcc).1.moving = true ∧
        (pcc_decide rand sk pcc).1.rate =
          (u64toU32 (if calc_utility pcc.util_func sk pcc (pcc.intervals.getD 2 default) >
                        calc_utility pcc.util_func sk pcc (pcc.intervals.getD 3 default) then
                      (pcc.intervals.getD 2 default).rate
                    else (pcc.intervals.getD 3 default).rate) : Int)) ∧
      ((u64toU32 (if calc_utility pcc.util_func sk pcc (pcc.intervals.getD 2 default) >
                      calc_utility pcc.util_func sk pcc (pcc.intervals.getD 3 default) then
                    (pcc.intervals.getD 2 default).rate
                  else (pcc.intervals.getD 3 default).rate) : Int) = pcc.rate →
        (pcc_decide rand sk pcc).1.moving = pcc.moving ∧
        (pcc_decide rand sk pcc).1.rate = pcc.rate ∧
        ((pcc_decide rand sk pcc).1.intervals.getD 0 default).rate =
          (if (rand >>> 0) % 2 = 1 then
            toU64 (pcc.rate * ((PCC_PROBING_EPS_PART : Int) - (PCC_PROBING_EPS : Int))) / PCC_PROBING_EPS_PART
          else
            toU64 (pcc.rate * ((PCC_PROBING_EPS_PART : Int) + (PCC_PROBING_EPS : Int))) / PCC_PROBING_EPS_PART) ∧
        ((pcc_decide rand sk pcc).1.intervals.getD 2 default).rate =
          (if (rand >>> 1) % 2 = 1 then
            toU64 (pcc.rate * ((PCC_PROBING_EPS_PART : Int) - (PCC_PROBING_EPS : Int))) / PCC_PROBING_EPS_PART
          else
            toU64 (pcc.rate * ((PCC_PROBING_EPS_PART : Int) + (PCC_PROBING_EPS : Int))) / PCC_PROBING_EPS_PART))) ∧
    (((decide (calc_utility pcc.util_func sk pcc (pcc.intervals.getD 0 default) >
                calc_utility pcc.util_func sk pcc (pcc.intervals.getD 1 default)) ==
        decide (calc_utility pcc.util_func sk pcc (pcc.intervals.getD 2 default) >
                calc_utility pcc.util_func sk pcc (pcc.intervals.getD 3 default))) ==
       decide ((pcc.intervals.getD 0 default).rate = (pcc.intervals.getD 2 default).rate)) = false →
      (pcc_decide rand sk pcc).1.rate = pcc.rate ∧
      (pcc_decide rand sk pcc).1.moving = pcc.moving ∧
      (pcc_decide rand sk pcc).1.send_index = 0 ∧
      (pcc_decide rand sk pcc).1.recive_index = 0 ∧
      (pcc_decide rand sk pcc).1.wait = false) := by
  obtain ⟨a, b, c, d, hiv⟩ := list_len4 pcc.intervals h4
  have htu : (toU32 pcc.rate : Int) = pcc.rate := by
    rw [toU32_int, Int.emod_eq_of_lt hr0 hr32]
  constructor
  · intro hagree
    rw [hiv] at hagree ⊢
    simp only [List.getD_cons_zero, List.getD_cons_succ] at hagree ⊢
    by_cases hb : calc_utility pcc.util_func sk pcc c > calc_utility pcc.util_func sk pcc d
    · have hag2 : (calc_utility pcc.util_func sk pcc b < calc_utility pcc.util_func sk pcc a ↔
          a.rate = c.rate) := by
        simpa [hb] using hagree
      simp only [hb, if_true]
      by_cases hwr : ((u64toU32 c.rate : Nat) : Int) = pcc.rate
      · simp [pcc_decide, pcc_decide_rate, hiv, pcc_setup_intervals_probing, start_interval,
          hag2, hb, hwr]
      · simp [pcc_decide, pcc_decide_rate, hiv, pcc_setup_intervals_moving, start_interval,
          hag2, hb, hwr]
    · have hag2 : decide (calc_utility pcc.util_func sk pcc b < calc_utility pcc.util_func sk pcc a) =
          !decide (a.rate = c.rate) := by
        simpa [hb] using hagree
      simp only [hb, if_false]
      by_cases hwr : ((u64toU32 d.rate : Nat) : Int) = pcc.rate
      · simp [pcc_decide, pcc_decide_rate, hiv, pcc_setup_intervals_probing, start_interval,
          hag2, hb, hwr]
      · simp [pcc_decide, pcc_decide_rate, hiv, pcc_setup_intervals_moving, start_interval,
          hag2, hb, hwr]
  · intro hdis
    rw [hiv] at hdis
    simp only [List.getD_cons_zero, List.getD_cons_succ] at hdis
    by_cases hb : calc_utility pcc.util_func sk pcc c > calc_utility pcc.util_func sk pcc d
    · have hag2 : ¬ (calc_utility pcc.util_func sk pcc b < calc_utility pcc.util_func sk pcc a ↔
          a.rate = c.rate) := by
        simpa [hb] using hdis
      simp [pcc_decide, pcc_decide_rate, hiv, pcc_setup_intervals_probing, start_interval,
        hag2, hb, htu]
    · have hag2 : ¬ decide (calc_utility pcc.util_func sk pcc b < calc_utility pcc.util_func sk pcc a) =
          !decide (a.rate = c.rate) := by
        simpa [hb] using hdis
      simp [pcc_decide, pcc_decide_rate, hiv, pcc_setup_intervals_probing, start_interval,
        hag2, hb, htu]

/-- High-rate probing interval with one delivery for the C2 witness. -/
def ivC2c : PccInterval :=
  { (default : PccInterval) with
      rate := 550502, delivered := 1, recv_end := 1000, send_end := 1000,
      start_rtt := 5000, end_rtt := 5000, packets_sent_base := 1 }

/-- Low-rate probing interval with no delivery for the C2 witness. -/
def ivC2d : PccInterval :=
  { (default : PccInterval) with rate := 498073, packets_sent_base := 1 }

/-- Controller state for the C2 witness: agreeing vote, winning rate
different from the current rate. -/
def pccC2w : PccData :=
  { intervals := [ivC2c, ivC2d, ivC2c, ivC2d],
    send_index := 4, recive_index := 3, rate := 524288, last_rate := 524288,
    util_func := .vivace, start_mode := false, moving := false, loss_state := false,
    wait := true, last_decision := .rate_up, lost_base := 0, delivered_base := 0,
    decisions_count := 0, packets_counted := 5, spare := 0,
    amplifier := 2, swing_buffer := 0, change_bound := 100 }

/-- Host sample for the C2 witness. -/
def skC2w : Sock :=
  { srtt_us := 80000, mss_cache := 1000, data_segs_out := 60, delivered := 2, lost := 0,
    in_flight := 0, tcp_mstamp := 1000000, snd_cwnd_clamp := 1000,
    sk_max_pacing_rate := 1000000000, sk_pacing_rate := 524288, snd_cwnd := 10 }

/-- Witness for the amended C2 at a concrete agreeing vote whose winning
rate differs from the current rate. -/
theorem C2_probing_decision_witness :
    (pcc_decide 0 skC2w pccC2w).1.moving = true :=
  (((C2_probing_decision 0 skC2w pccC2w (by decide) (by decide) (by decide)).1
    (by decide)).2.2.2.2.2.1 (by decide)).1

/-! ## C10 -/

lemma abs_tdiv_le (a b : Int) : |a.tdiv b| ≤ |a| := by
  rw [Int.abs_eq_natAbs, Int.abs_eq_natAbs, Int.natAbs_tdiv]
  exact_mod_cast Nat.div_le_self _ _

lemma abs_tdiv_eq (a b : Int) : |a.tdiv b| = |a| / |b| := by
  rw [Int.abs_eq_natAbs, Int.abs_eq_natAbs, Int.abs_eq_natAbs, Int.natAbs_tdiv]
  exact Int.natCast_div _ _

lemma abs_ite_zero (c : Prop) [Decidable c] (x B : Int) (h : |x| ≤ B) (hB : 0 ≤ B) :
    |if c then 0 else x| ≤ B := by
  split_ifs
  · simpa
  · exact h

/-- The Vivace utility formula `rate - rate*(900*lat + 11*loss)/1000`
stays far above `S64_MIN` for a bounded rate, a latency-inflation term
bounded by `1000 * 2^29` (the largest magnitude a `srtt_us >> 3`
difference can produce), and a loss fraction in `[0, 1000]`. -/
lemma util_formula_bound (rate lat loss : Int)
    (h1 : 0 ≤ rate) (h2 : rate ≤ 550502)
    (hl : |lat| ≤ 536870912000) (ho : 0 ≤ loss) (ho2 : loss ≤ 1000) :
    -9223372036854775808 < rate - (rate * (900 * lat + 11 * loss)).tdiv 1000 := by
  rcases abs_le.mp hl with ⟨hl1, hl2⟩
  have h3 : |900 * lat + 11 * loss| ≤ 483183820811000 := by
    rw [abs_le]
    constructor <;> linarith
  have h4 : |rate * (900 * lat + 11 * loss)| ≤ 265993659724097122000 := by
    rw [abs_mul, abs_of_nonneg h1]
    calc rate * |900 * lat + 11 * loss| ≤ 550502 * 483183820811000 :=
          mul_le_mul h2 h3 (abs_nonneg _) (by norm_num)
      _ = 265993659724097122000 := by norm_num
  have h5 : |(rate * (900 * lat + 11 * loss)).tdiv 1000| ≤ 265993659724097122 := by
    rw [abs_tdiv_eq]
    calc |rate * (900 * lat + 11 * loss)| / |1000| ≤ 265993659724097122000 / |1000| :=
          Int.ediv_le_ediv (by norm_num) h4
      _ = 265993659724097122 := by norm_num
  rcases abs_le.mp h5 with ⟨h6, h7⟩
  linarith

/-- The Vivace utility of any interval whose rate is at most 550502 and
whose rtt stamps are genuine `srtt_us >> 3` values (in `[0, 2^29)`) is
strictly above the sentinel `S64_MIN`. -/
lemma vivace_gt_min (sk : Sock) (pcc : PccData) (iv : PccInterval)
    (hrate : iv.rate ≤ 550502)
    (hs : 0 ≤ iv.start_rtt) (hs2 : iv.start_rtt < 536870912)
    (he : 0 ≤ iv.end_rtt) (he2 : iv.end_rtt < 536870912) :
    S64_MIN < pcc_calc_utility_vivace sk pcc iv := by
  simp only [pcc_calc_utility_vivace, S64_MIN, PCC_SCALE, PCC_LAT_INFL_FILTER]
  by_cases hd : (iv.delivered : Int) = 0
  · rw [if_pos hd]
    norm_num
  · rw [if_neg hd]
    have hdel : (1 : Int) ≤ (iv.delivered : Int) := by
      have : 0 ≤ (iv.delivered : Int) := Int.ofNat_nonneg _
      omega
    apply util_formula_bound
    · exact Int.ofNat_nonneg _
    · exact_mod_cast hrate
    · apply abs_ite_zero
      apply abs_ite_zero
      apply abs_ite_zero
      · split_ifs with hsd
        · calc |(1000 * (iv.end_rtt - iv.start_rtt)).tdiv (iv.send_end - iv.send_start)| ≤
                |1000 * (iv.end_rtt - iv.start_rtt)| := abs_tdiv_le _ _
            _ = 1000 * |iv.end_rtt - iv.start_rtt| := by
                rw [abs_mul]
                norm_num
            _ ≤ 1000 * 536870911 := by
                have : |iv.end_rtt - iv.start_rtt| ≤ 536870911 := by
                  rw [abs_le]
                  omega
                linarith
            _ ≤ 536870912000 := by norm_num
        · simp
      · norm_num
      · norm_num
      · norm_num
    · split_ifs
      · exact le_rfl
      · exact Int.tdiv_nonneg (by positivity) (by positivity)
    · split_ifs
      · norm_num
      · have hpos : (0 : Int) < (iv.lost : Int) + (iv.delivered : Int) := by
          have : 0 ≤ (iv.lost : Int) := Int.ofNat_nonneg _
          omega
        rw [Int.tdiv_eq_ediv (by positivity) (le_of_lt hpos)]
        calc ((iv.lost : Int) * 1000) / ((iv.lost : Int) + (iv.delivered : Int)) ≤
              (((iv.lost : Int) + (iv.delivered : Int)) * 1000) / ((iv.lost : Int) + (iv.delivered : Int)) := by
              apply Int.ediv_le_ediv hpos
              have : 0 ≤ (iv.delivered : Int) := Int.ofNat_nonneg _
              nlinarith
          _ = 1000 := Int.mul_ediv_cancel_left _ (ne_of_gt hpos)

/-- C10: immediately after `pcc_init` the slow-start baseline utility
(interval 0's utility) is the sentinel `S64_MIN`, and the first
completed slow-start interval necessarily takes the improvement branch
of `pcc_decide_slow_start`: with the Vivace utility (the one bound at
init), any measured interval at the probing rate laid out by init
(550502 or 498073, i.e. +-5% of the initial 512 KiB/s = 524288 rate)
with genuine rtt stamps has utility 0 (no delivery) or a finite
rate-based value, strictly above `S64_MIN`; hence `last_rate` becomes
the initial rate 524288 and the rate becomes 1.5 times it, 786432.
Status: confirmed. -/
theorem C10_first_slow_start (rand rand2 : Nat) (sk sk2 : Sock) (iv : PccInterval)
    (hrt : iv.rate = ((pcc_init rand sk).1.intervals.getD 0 default).rate)
    (hut : iv.utility = S64_MIN)
    (hs : 0 ≤ iv.start_rtt) (hs2 : iv.start_rtt < 536870912)
    (he : 0 ≤ iv.end_rtt) (he2 : iv.end_rtt < 536870912) :
    ((pcc_init rand sk).1.intervals.getD 0 default).utility = S64_MIN ∧
    (pcc_decide_slow_start rand2 sk2
        { (pcc_init rand sk).1 with
            intervals := (pcc_init rand sk).1.intervals.set 0 iv }).1.last_rate = 524288 ∧
    (pcc_decide_slow_start rand2 sk2
        { (pcc_init rand sk).1 with
            intervals := (pcc_init rand sk).1.intervals.set 0 iv }).1.rate = 786432 := by
  have hfields : (pcc_init rand sk).1.rate = 524288 ∧
      (pcc_init rand sk).1.util_func = UtilFn.vivace ∧
      (pcc_init rand sk).1.intervals.length = 4 ∧
      ((pcc_init rand sk).1.intervals.getD 0 default).utility = S64_MIN ∧
      ((pcc_init rand sk).1.intervals.getD 0 default).rate =
        (if rand % 2 = 1 then 498073 else 550502) := by
    by_cases hb : rand % 2 = 1 <;>
      simp [pcc_init, pcc_setup_intervals_probing, start_interval, pcc_set_cwnd, hb,
        PCC_INTERVALS, PCC_RATE_MIN, PCC_PROBING_EPS, PCC_PROBING_EPS_PART, toU64, S64_MIN,
        List.replicate]
  obtain ⟨hr5, hfu, hlen, hu0, hr0⟩ := hfields
  have hrate550 : iv.rate ≤ 550502 := by
    rw [hrt, hr0]
    split_ifs <;> norm_num
  obtain ⟨a0, b0, c0, d0, hiv0⟩ := list_len4 (pcc_init rand sk).1.intervals hlen
  have hgt : iv.utility <
      calc_utility (pcc_init rand sk).1.util_func sk2
        { (pcc_init rand sk).1 with
            intervals := (pcc_init rand sk).1.intervals.set 0 iv } iv := by
    rw [hut, hfu]
    exact vivace_gt_min _ _ _ hrate550 hs hs2 he he2
  refine ⟨hu0, ?_, ?_⟩ <;>
  · rw [hiv0] at hgt ⊢
    simp only [List.set_cons_zero] at hgt ⊢
    simp only [pcc_decide_slow_start, List.getD_cons_zero, List.set_cons_zero, start_interval,
      hgt, if_true]
    simp [hr5] <;> decide

/-- Measured first slow-start interval for the C10 witness (nothing
delivered, so the Vivace utility is 0 > S64_MIN). -/
def ivC10 : PccInterval :=
  { (default : PccInterval) with
      rate := 550502, utility := S64_MIN, start_rtt := 5000, end_rtt := 6000,
      packets_sent_base := 1, packets_ended := 60 }

/-- Host state at init time for the C10 witness. -/
def skC10 : Sock :=
  { srtt_us := 80000, mss_cache := 1000, data_segs_out := 0, delivered := 0, lost := 0,
    in_flight := 0, tcp_mstamp := 0, snd_cwnd_clamp := 1000,
    sk_max_pacing_rate := 1000000000, sk_pacing_rate := 0, snd_cwnd := 10 }

/-- Host sample at first decision time for the C10 witness. -/
def skC10b : Sock :=
  { srtt_us := 80000, mss_cache := 1000, data_segs_out := 60, delivered := 55, lost := 0,
    in_flight := 0, tcp_mstamp := 1000000, snd_cwnd_clamp := 1000,
    sk_max_pacing_rate := 1000000000, sk_pacing_rate := 550502, snd_cwnd := 10 }

/-- Witness for C10 at concrete init/decision states. -/
theorem C10_first_slow_start_witness :
    ((pcc_init 0 skC10).1.intervals.getD 0 default).utility = S64_MIN ∧
    (pcc_decide_slow_start 0 skC10b
        { (pcc_init 0 skC10).1 with
            intervals := (pcc_init 0 skC10).1.intervals.set 0 ivC10 }).1.last_rate = 524288 :=
  ⟨(C10_first_slow_start 0 0 skC10 skC10b ivC10 (by decide) (by decide) (by decide) (by decide)
      (by decide) (by decide)).1,
   (C10_first_slow_start 0 0 skC10 skC10b ivC10 (by decide) (by decide) (by decide) (by decide)
      (by decide) (by decide)).2.1⟩

/-! ## C1 amended: the inductive cursor invariant -/

lemma getD_set_self {α : Type} [Inhabited α] (l : List α) (i : Nat) (x : α) (hi : i < l.length) :
    (l.set i x).getD i default = x := by
  induction l generalizing i with
  | nil => simp at hi
  | cons a t ih =>
    cases i with
    | zero => rfl
    | succ j =>
      simp only [List.set_cons_succ, List.getD_cons_succ]
      exact ih j (by simpa using hi)

lemma getD_set_ne {α : Type} [Inhabited α] (l : List α) (i j : Nat) (x : α) (hij : i ≠ j) :
    (l.set i x).getD j default = l.getD j default := by
  induction l generalizing i j with
  | nil => rfl
  | cons a t ih =>
    cases i with
    | zero =>
      cases j with
      | zero => exact absurd rfl hij
      | succ k => rfl
    | succ i' =>
      cases j with
      | zero => rfl
      | succ k =>
        simp only [List.set_cons_succ, List.getD_cons_succ]
        exact ih i' k (by omega)

/-- The inductive cursor invariant that `pcc_process` actually preserves
(the amended form of claim C1): both cursors start nonnegative, the
receive cursor stays strictly below 4 while the send cursor may reach 4
(waiting); outside the loss state, slow-start/moving keep the receive
cursor at 0 and the send cursor at 0 or 1 (1 exactly when waiting), and
probing keeps `recive_index ≤ send_index` with waiting exactly when the
send cursor has walked off the ring; auxiliary clause: whenever the
controller is not waiting, the currently-sending interval has
`packets_ended = 0` (it is reset whenever an interval starts sending). -/
def PccInv (p : PccData) : Prop :=
  p.intervals.length = 4 ∧
  0 ≤ p.recive_index ∧ p.recive_index < 4 ∧
  0 ≤ p.send_index ∧ p.send_index ≤ 4 ∧
  (p.loss_state = false ∧ (p.start_mode = true ∨ p.moving = true) →
    p.recive_index = 0 ∧ p.send_index ≤ 1 ∧ (p.send_index = 1 ↔ p.wait = true)) ∧
  (p.loss_state = false ∧ p.start_mode = false ∧ p.moving = false →
    p.recive_index ≤ p.send_index ∧ (p.wait = true ↔ p.send_index = 4)) ∧
  (p.wait = false → (p.intervals.getD p.send_index.toNat default).packets_ended = 0)

instance (p : PccData) : Decidable (PccInv p) := by
  unfold PccInv
  infer_instance

/-- A fresh (re)start with both cursors at 0 and `wait` cleared satisfies
the invariant: `start_interval` resets interval 0, including its
`packets_ended`. -/
lemma inv_after_relayout (sk : Sock) (q : PccData)
    (hq : q.intervals.length = 4) (hs : q.send_index = 0) (hr : q.recive_index = 0)
    (hw : q.wait = false) :
    PccInv (start_interval sk q).1 := by
  obtain ⟨a, b, c, d, hiv⟩ := list_len4 q.intervals hq
  unfold PccInv start_interval
  simp [hiv, hs, hr, hw]

/-- Both branches of the slow-start decider re-start with cursors at 0. -/
lemma inv_decide_slow_start (rand : Nat) (sk : Sock) (q : PccData)
    (h4 : q.intervals.length = 4) :
    PccInv (pcc_decide_slow_start rand sk q).1 := by
  simp only [pcc_decide_slow_start]
  split_ifs with himp
  · apply inv_after_relayout
    · simp [List.length_set, h4]
    · rfl
    · rfl
    · rfl
  · apply inv_after_relayout
    · simp [pcc_setup_intervals_probing, List.length_set, h4]
    · rfl
    · rfl
    · rfl

/-- Both branches of the moving decider re-start with cursors at 0. -/
lemma inv_decide_moving (rand : Nat) (sk : Sock) (q : PccData)
    (h4 : q.intervals.length = 4) :
    PccInv (pcc_decide_moving rand sk q).1 := by
  simp only [pcc_decide_moving]
  split_ifs with hdec
  · apply inv_after_relayout
    · simp [pcc_setup_intervals_probing, pcc_decide_rate_moving, pcc_update_step_params,
        pcc_apply_change_bound, List.length_set, h4]
      split_ifs <;> simp [List.length_set, h4]
    · simp [pcc_setup_intervals_probing]
    · simp [pcc_setup_intervals_probing]
    · simp [pcc_setup_intervals_probing]
  · apply inv_after_relayout
    · simp [pcc_setup_intervals_moving, pcc_decide_rate_moving, pcc_update_step_params,
        pcc_apply_change_bound, List.length_set, h4]
      split_ifs <;> simp [List.length_set, h4]
    · simp [pcc_setup_intervals_moving]
    · simp [pcc_setup_intervals_moving]
    · simp [pcc_setup_intervals_moving]

/-- Both branches of the probing decider re-start with cursors at 0. -/
lemma inv_decide (rand : Nat) (sk : Sock) (q : PccData)
    (h4 : q.intervals.length = 4) :
    PccInv (pcc_decide rand sk q).1 := by
  simp only [pcc_decide]
  have hiff : ∀ (p : PccData) (x : Int),
      PccInv { p with decisions_count := x } ↔ PccInv p := fun p x => Iff.rfl
  split_ifs with hnr
  · rw [hiff]
    apply inv_after_relayout
    · simp [pcc_setup_intervals_moving, pcc_decide_rate, List.length_set, h4]
      split_ifs <;> simp [List.length_set, h4]
    · simp [pcc_setup_intervals_moving]
    · simp [pcc_setup_intervals_moving]
    · simp [pcc_setup_intervals_moving]
  · rw [hiff]
    apply inv_after_relayout
    · simp [pcc_setup_intervals_probing, pcc_decide_rate, List.length_set, h4]
      split_ifs <;> simp [List.length_set, h4]
    · simp [pcc_setup_intervals_probing]
    · simp [pcc_setup_intervals_probing]
    · simp [pcc_setup_intervals_probing]

/-- The send phase never touches the receive cursor, the mode flags, the
loss gate, `packets_counted`, or `spare`. -/
lemma send_phase_frame (sk : Sock) (p : PccData) :
    (pcc_send_phase sk p).1.recive_index = p.recive_index ∧
    (pcc_send_phase sk p).1.start_mode = p.start_mode ∧
    (pcc_send_phase sk p).1.moving = p.moving ∧
    (pcc_send_phase sk p).1.loss_state = p.loss_state ∧
    (pcc_send_phase sk p).1.packets_counted = p.packets_counted ∧
    (pcc_send_phase sk p).1.spare = p.spare := by
  simp only [pcc_send_phase, start_next_send_interval, start_interval]
  split_ifs <;> simp

/-- The send phase preserves the cursor invariant (outside loss). -/
lemma inv_send_phase (sk : Sock) (p : PccData) (h : PccInv p) (hl : p.loss_state = false) :
    PccInv (pcc_send_phase sk p).1 := by
  obtain ⟨h1, h2, h3, h4, h5, hmode, hprob, hB⟩ := h
  simp only [pcc_send_phase]
  by_cases hw : p.wait = false
  · simp only [hw, if_true]
    by_cases hend :
        send_interval_ended (p.intervals.getD p.send_index.toNat default) sk p = true
    · have hs4 : p.send_index < 4 := by
        by_cases hsm : p.start_mode = true ∨ p.moving = true
        · have := hmode ⟨hl, hsm⟩
          omega
        · push_neg at hsm
          have hsm1 : p.start_mode = false := by
            rcases hsm with ⟨hx, -⟩
            simpa using hx
          have hsm2 : p.moving = false := by
            rcases hsm with ⟨-, hx⟩
            simpa using hx
          have hpr := hprob ⟨hl, hsm1, hsm2⟩
          have : p.send_index ≠ 4 := by
            intro hc
            have := hpr.2.mpr hc
            rw [this] at hw
            simp at hw
          omega
      simp only [hend, if_true, start_next_send_interval, start_interval]
      by_cases hcond : p.send_index + 1 = (PCC_INTERVALS : Int) ∨ p.start_mode = true ∨ p.moving = true
      · rw [if_pos hcond]
        simp only [Bool.true_eq_false, if_false, PccInv]
        refine ⟨?_, ?_, ?_, ?_, ?_, ?_, ?_, ?_⟩
        · show (p.intervals.set p.send_index.toNat _).length = 4
          simp [h1]
        · exact h2
        · exact h3
        · show 0 ≤ p.send_index + 1
          omega
        · show p.send_index + 1 ≤ 4
          omega
        · rintro ⟨-, hsm⟩
          have hm := hmode ⟨hl, by simpa using hsm⟩
          have hsz : p.send_index = 0 := by
            rcases hm with ⟨-, hle, hiff⟩
            have : p.send_index ≠ 1 := by
              intro hc
              have := hiff.mp hc
              rw [this] at hw
              simp at hw
            omega
          exact ⟨hm.1, by omega, by simp [hsz]⟩
        · rintro ⟨-, hsf, hmf⟩
          have hpr := hprob ⟨hl, by simpa using hsf, by simpa using hmf⟩
          have h14 : p.send_index + 1 = 4 := by
            rcases hcond with hc | hc | hc
            · simpa [PCC_INTERVALS] using hc
            · simp [hc] at hsf
            · simp [hc] at hmf
          refine ⟨?_, ?_⟩
          · show p.recive_index ≤ p.send_index + 1
            omega
          · simp [h14]
        · intro hwf
          simp at hwf
      · rw [if_neg hcond]
        push_neg at hcond
        obtain ⟨hne4, hsmf, hmvf⟩ := hcond
        have hne4a : p.send_index + 1 ≠ 4 := by simpa [PCC_INTERVALS] using hne4
        have hsmf2 : p.start_mode = false := by simpa using hsmf
        have hmvf2 : p.moving = false := by simpa using hmvf
        have hpr := hprob ⟨hl, hsmf2, hmvf2⟩
        simp only [hw, if_true, PccInv]
        refine ⟨?_, ?_, ?_, ?_, ?_, ?_, ?_, ?_⟩
        · show ((p.intervals.set p.send_index.toNat _).set (p.send_index + 1).toNat _).length = 4
          simp [h1]
        · exact h2
        · exact h3
        · show 0 ≤ p.send_index + 1
          omega
        · show p.send_index + 1 ≤ 4
          omega
        · rintro ⟨-, hsm⟩
          simp [hsmf2, hmvf2] at hsm
        · rintro -
          refine ⟨?_, ?_⟩
          · show p.recive_index ≤ p.send_index + 1
            omega
          · show (false = true ↔ p.send_index + 1 = 4)
            simp [hne4a]
        · rintro -
          rw [getD_set_self _ _ _ (by simp [h1]; omega)]
    · simp only [hend, if_false]
      exact ⟨h1, h2, h3, h4, h5, hmode, hprob, hB⟩
  · simp only [hw, if_false]
    exact ⟨h1, h2, h3, h4, h5, hmode, hprob, hB⟩

lemma update_interval_ended (sk : Sock) (q : PccData) (iv : PccInterval) :
    (pcc_update_interval sk q iv).packets_ended = iv.packets_ended := by
  simp only [pcc_update_interval]
  split_ifs <;> rfl

/-- Folding sample deltas into an interval preserves the invariant (it
never touches `packets_ended`, the cursors, or the flags). -/
lemma inv_set_update (sk : Sock) (q : PccData) (h : PccInv q) (i : Nat)
    (hi : i < q.intervals.length) :
    PccInv { q with
      intervals := q.intervals.set i (pcc_update_interval sk q (q.intervals.getD i default)) } := by
  obtain ⟨h1, h2, h3, h4, h5, hmode, hprob, hB⟩ := h
  refine ⟨?_, h2, h3, h4, h5, hmode, hprob, ?_⟩
  · show (q.intervals.set i _).length = 4
    simp [h1]
  · intro hw
    have hB0 := hB hw
    rcases eq_or_ne i q.send_index.toNat with hc | hc
    · subst hc
      rw [getD_set_self _ _ _ hi, update_interval_ended]
      exact hB0
    · rw [getD_set_ne _ _ _ _ hc]
      exact hB0

/-- Receive-interval completion preserves the invariant: the auxiliary
clause (the sending interval has `packets_ended = 0` unless waiting)
forbids the receive cursor from overtaking the send cursor. -/
lemma inv_recv_dispatch (rand : Nat) (sk : Sock) (q : PccData) (h : PccInv q)
    (hE : (q.intervals.getD q.recive_index.toNat default).packets_ended ≠ 0) :
    PccInv (pcc_recv_dispatch rand sk q).1 := by
  obtain ⟨h1, h2, h3, h4, h5, hmode, hprob, hB⟩ := h
  simp only [pcc_recv_dispatch]
  by_cases hsm : q.start_mode = true
  · rw [if_pos hsm]
    exact inv_decide_slow_start rand sk _ (by simpa using h1)
  · rw [if_neg hsm]
    by_cases hmv : q.moving = true
    · rw [if_pos hmv]
      exact inv_decide_moving rand sk _ (by simpa using h1)
    · rw [if_neg hmv]
      by_cases h4r : q.recive_index + 1 = (PCC_INTERVALS : Int)
      · rw [if_pos h4r]
        exact inv_decide rand sk _ (by simpa using h1)
      · rw [if_neg h4r]
        have h4ra : q.recive_index + 1 ≠ 4 := by simpa [PCC_INTERVALS] using h4r
        refine ⟨h1, ?_, ?_, h4, h5, ?_, ?_, hB⟩
        · show 0 ≤ q.recive_index + 1
          omega
        · show q.recive_index + 1 < 4
          omega
        · rintro ⟨-, hx | hx⟩
          · exact absurd hx hsm
          · exact absurd hx hmv
        · rintro ⟨hlf, hsf, hmf⟩
          have hpr := hprob ⟨hlf, hsf, hmf⟩
          by_cases hw : q.wait = true
          · have hs4 := hpr.2.mp hw
            refine ⟨?_, hpr.2⟩
            show q.recive_index + 1 ≤ q.send_index
            omega
          · have hwf : q.wait = false := by simpa using hw
            have hB0 := hB hwf
            have hne : q.recive_index.toNat ≠ q.send_index.toNat := by
              intro hc
              rw [hc] at hE
              exact hE hB0
            have hne2 : q.recive_index ≠ q.send_index := by omega
            refine ⟨?_, hpr.2⟩
            show q.recive_index + 1 ≤ q.send_index
            have := hpr.1
            omega

/-- C1 amended: `pcc_process` preserves the inductive cursor invariant
`PccInv`: after every `on_sample` call, `0 ≤ send_index ≤ 4` and
`0 ≤ recv_index < 4`; during probing `recv_index ≤ send_index` and the
controller waits exactly when `send_index = 4`; in slow-start and moving
modes `recv_index = 0` and `send_index ∈ {0, 1}`, waiting exactly when
`send_index = 1`.  (The original claim's `send_index < 4` and both
cursors 0 in slow-start/moving are refuted by the counterexample.)
Status: corrected. -/
theorem C1_cursor_invariant (rand : Nat) (sk : Sock) (pcc : PccData) (h : PccInv pcc) :
    PccInv (pcc_process rand sk pcc).1 := by
  simp only [pcc_process]
  by_cases hv : pcc_valid pcc = false
  · rw [if_pos hv]
    exact h
  · rw [if_neg hv]
    by_cases hl : pcc.loss_state = true
    · rw [if_pos hl]
      exact h
    · rw [if_neg hl]
      have hlf : pcc.loss_state = false := by simpa using hl
      have hsp := inv_send_phase (pcc_set_cwnd sk) pcc h hlf
      have hlen : (pcc_send_phase (pcc_set_cwnd sk) pcc).1.recive_index.toNat <
          (pcc_send_phase (pcc_set_cwnd sk) pcc).1.intervals.length := by
        obtain ⟨hq1, hq2, hq3, -⟩ := hsp
        rw [hq1]
        omega
      split
      · exact hsp
      · split
        · next hfold =>
            have hinv2 := inv_set_update (pcc_send_phase (pcc_set_cwnd sk) pcc).2
              ({ (pcc_send_phase (pcc_set_cwnd sk) pcc).1 with
                  packets_counted :=
                    sub32 (((pcc_send_phase (pcc_set_cwnd sk) pcc).2.delivered +
                        (pcc_send_phase (pcc_set_cwnd sk) pcc).2.lost) % 4294967296)
                      (pcc_send_phase (pcc_set_cwnd sk) pcc).1.spare } : PccData)
              hsp (pcc_send_phase (pcc_set_cwnd sk) pcc).1.recive_index.toNat hlen
            split
            · next hre =>
                simp only [recive_interval_ended, Bool.and_eq_true, bne_iff_ne, ne_eq,
                  decide_eq_true_eq] at hre
                exact inv_recv_dispatch rand (pcc_send_phase (pcc_set_cwnd sk) pcc).2 _
                  hinv2 hre.1
            · exact hinv2
        · next hfold =>
            split
            · next hre =>
                simp only [recive_interval_ended, Bool.and_eq_true, bne_iff_ne, ne_eq,
                  decide_eq_true_eq] at hre
                exact inv_recv_dispatch rand (pcc_send_phase (pcc_set_cwnd sk) pcc).2 _
                  hsp hre.1
            · exact hsp

/-- Witness for the amended C1 at a concrete slow-start state. -/
theorem C1_cursor_invariant_witness :
    PccInv pccC1 ∧ PccInv (pcc_process 0 skC1 pccC1).1 :=
  ⟨by decide, C1_cursor_invariant 0 skC1 pccC1 (by decide)⟩

/-! ## C7 amended: replay idempotence -/

/-- The receive-completion observable of one `pcc_process` call: mirrors
the call's phases and reports whether the receive interval completes
(i.e. whether a decider runs). -/
def pcc_recv_completes (sk0 : Sock) (p : PccData) : Bool :=
  if pcc_valid p = false then false
  else
    let sk := pcc_set_cwnd sk0
    if p.loss_state = true then false
    else
      let ps := pcc_send_phase sk p
      let pcc := ps.1
      let index := pcc.recive_index
      let before := pcc.packets_counted
      let pcc := { pcc with packets_counted := sub32 ((ps.2.delivered + ps.2.lost) % 4294967296) pcc.spare }
      let iv : PccInterval := pcc.intervals.getD index.toNat default
      if iv.packets_sent_base = 0 then false
      else
        let pcc :=
          if before > (10 + iv.packets_sent_base) % 4294967296 then
            { pcc with intervals := pcc.intervals.set index.toNat (pcc_update_interval ps.2 pcc iv) }
          else pcc
        let iv := pcc.intervals.getD index.toNat default
        recive_interval_ended iv pcc

@[simp] lemma set_cwnd_srtt (sk : Sock) : (pcc_set_cwnd sk).srtt_us = sk.srtt_us := rfl
@[simp] lemma set_cwnd_mss (sk : Sock) : (pcc_set_cwnd sk).mss_cache = sk.mss_cache := rfl
@[simp] lemma set_cwnd_dso (sk : Sock) : (pcc_set_cwnd sk).data_segs_out = sk.data_segs_out := rfl
@[simp] lemma set_cwnd_delivered (sk : Sock) : (pcc_set_cwnd sk).delivered = sk.delivered := rfl
@[simp] lemma set_cwnd_lost (sk : Sock) : (pcc_set_cwnd sk).lost = sk.lost := rfl
@[simp] lemma set_cwnd_mstamp (sk : Sock) : (pcc_set_cwnd sk).tcp_mstamp = sk.tcp_mstamp := rfl
@[simp] lemma set_cwnd_pacing (sk : Sock) : (pcc_set_cwnd sk).sk_pacing_rate = sk.sk_pacing_rate := rfl
@[simp] lemma set_cwnd_max_pacing (sk : Sock) : (pcc_set_cwnd sk).sk_max_pacing_rate = sk.sk_max_pacing_rate := rfl

lemma set_cwnd_idem (sk : Sock) : pcc_set_cwnd (pcc_set_cwnd sk) = pcc_set_cwnd sk := rfl

lemma sub32_self (a : Nat) : sub32 a a = 0 := by
  unfold sub32
  omega

lemma sub32_of_le (a b : Nat) (h1 : b ≤ a) (h2 : a < 4294967296) : sub32 a b = a - b := by
  unfold sub32
  omega

lemma toI32_fresh (n : Nat) : toI32 (sub32 n (max n 1)) < 50 := by
  unfold toI32 sub32
  rcases Nat.eq_zero_or_pos n with h | h
  · subst h
    decide
  · have : max n 1 = n := by omega
    rw [this]
    split_ifs <;> omega

lemma list_set_getD {α : Type} [Inhabited α] (l : List α) (i : Nat) :
    l.set i (l.getD i default) = l := by
  induction l generalizing i with
  | nil => rfl
  | cons a t ih =>
    cases i with
    | zero => rfl
    | succ j =>
      simp only [List.set_cons_succ, List.getD_cons_succ]
      rw [ih]

/-- The send phase is a no-op when waiting or the interval has not
finished sending. -/
lemma send_phase_noop (sk : Sock) (q : PccData)
    (h : q.wait = true ∨
      send_interval_ended (q.intervals.getD q.send_index.toNat default) sk q = false) :
    pcc_send_phase sk q = (q, sk) := by
  simp only [pcc_send_phase]
  rcases h with h | h
  · rw [if_neg]
    exact fun hw => Bool.noConfusion (h ▸ hw)
  · by_cases hw : q.wait = false
    · rw [if_pos hw, if_neg]
      exact fun hc => Bool.noConfusion (h ▸ hc)
    · rw [if_neg hw]

/-- `send_interval_ended` only reads `data_segs_out` from the socket. -/
lemma send_interval_ended_congr (iv : PccInterval) (sk1 sk2 : Sock) (q : PccData)
    (h : sk1.data_segs_out = sk2.data_segs_out) :
    send_interval_ended iv sk1 q = send_interval_ended iv sk2 q := by
  simp only [send_interval_ended, h]

/-- `pcc_update_interval` only reads the clock, srtt and the two
delivery counters from the socket. -/
lemma update_interval_congr (sk1 sk2 : Sock) (q : PccData) (iv : PccInterval)
    (h1 : sk1.tcp_mstamp = sk2.tcp_mstamp) (h2 : sk1.srtt_us = sk2.srtt_us)
    (h3 : sk1.lost = sk2.lost) (h4 : sk1.delivered = sk2.delivered) :
    pcc_update_interval sk1 q iv = pcc_update_interval sk2 q iv := by
  simp only [pcc_update_interval, h1, h2, h3, h4]

/-- `pcc_process` is a fixed point on a state that has already absorbed
the sample: baselines and `packets_counted` match the host counters, the
sample ends no send interval, folding the (zero) deltas is a no-op, and
the receive interval does not complete.  Only the (idempotent) cwnd
write-back happens. -/
lemma process_fix (rand : Nat) (skx : Sock) (q : PccData)
    (hv : pcc_valid q = true)
    (hba : q.lost_base = skx.lost) (hbb : q.delivered_base = skx.delivered)
    (hpc : q.packets_counted = sub32 ((skx.delivered + skx.lost) % 4294967296) q.spare)
    (hsend : q.wait = true ∨
      send_interval_ended (q.intervals.getD q.send_index.toNat default) skx q = false)
    (hup : (q.intervals.getD q.recive_index.toNat default).packets_sent_base ≠ 0 →
      q.packets_counted > (10 + (q.intervals.getD q.recive_index.toNat default).packets_sent_base) % 4294967296 →
      pcc_update_interval skx q (q.intervals.getD q.recive_index.toNat default) =
        q.intervals.getD q.recive_index.toNat default)
    (hrecv : (q.intervals.getD q.recive_index.toNat default).packets_sent_base ≠ 0 →
      recive_interval_ended (q.intervals.getD q.recive_index.toNat default) q = false) :
    pcc_process rand skx q = (q, pcc_set_cwnd skx) := by
  have hvv : ¬(pcc_valid q = false) := by rw [hv]; exact Bool.noConfusion
  have e1 : ({ q with
      lost_base := (pcc_set_cwnd skx).lost,
      delivered_base := (pcc_set_cwnd skx).delivered } : PccData) = q := by
    rw [set_cwnd_lost, set_cwnd_delivered, ← hba, ← hbb]
  have e2 : ({ q with
      lost_base := skx.lost,
      delivered_base := skx.delivered } : PccData) = q := by
    rw [← hba, ← hbb]
  simp only [pcc_process]
  rw [if_neg hvv]
  by_cases hls : q.loss_state = true
  · rw [if_pos hls, e1]
  · rw [if_neg hls]
    have hsp : pcc_send_phase (pcc_set_cwnd skx) q = (q, pcc_set_cwnd skx) := by
      apply send_phase_noop
      rcases hsend with h | h
      · exact Or.inl h
      · refine Or.inr ?_
        rw [send_interval_ended_congr _ _ skx _ (set_cwnd_dso skx)]
        exact h
    rw [hsp]
    dsimp only
    simp only [set_cwnd_delivered, set_cwnd_lost]
    rw [← hpc]
    have eq1 : ({ q with packets_counted := q.packets_counted } : PccData) = q := rfl
    rw [eq1]
    by_cases hb0 : (q.intervals.getD q.recive_index.toNat default).packets_sent_base = 0
    · rw [if_pos hb0, e2]
    · rw [if_neg hb0]
      by_cases hg : q.packets_counted >
          (10 + (q.intervals.getD q.recive_index.toNat default).packets_sent_base) % 4294967296
      · rw [if_pos hg,
          update_interval_congr (pcc_set_cwnd skx) skx q _ (set_cwnd_mstamp skx)
            (set_cwnd_srtt skx) (set_cwnd_lost skx) (set_cwnd_delivered skx),
          hup hb0 hg, list_set_getD]
        have eq2 : ({ q with intervals := q.intervals } : PccData) = q := rfl
        rw [eq2]
        rw [if_neg (fun hc => Bool.noConfusion ((hrecv hb0) ▸ hc))]
        dsimp only
        rw [e1]
      · rw [if_neg hg]
        rw [if_neg (fun hc => Bool.noConfusion ((hrecv hb0) ▸ hc))]
        dsimp only
        rw [e1]

/-- State component of the send phase as run by `pcc_process` (after the
cwnd write-back). -/
def sp1 (sk : Sock) (p : PccData) : PccData := (pcc_send_phase (pcc_set_cwnd sk) p).1

/-- Socket component of the send phase as run by `pcc_process`. -/
def sp2 (sk : Sock) (p : PccData) : Sock := (pcc_send_phase (pcc_set_cwnd sk) p).2

/-- The receive-side accounting step of `pcc_process`: refresh
`packets_counted` and, when the receiving interval exists and most of its
packets are counted, fold the sample into it. -/
def pcc_fold (sk : Sock) (pcc : PccData) : PccData :=
  let before := pcc.packets_counted
  let pccc := { pcc with packets_counted := sub32 ((sk.delivered + sk.lost) % 4294967296) pcc.spare }
  let iv : PccInterval := pccc.intervals.getD pcc.recive_index.toNat default
  if iv.packets_sent_base = 0 then pccc
  else if before > (10 + iv.packets_sent_base) % 4294967296 then
    { pccc with intervals := pccc.intervals.set pcc.recive_index.toNat (pcc_update_interval sk pccc iv) }
  else pccc

/-- When the receive interval does not complete, `pcc_process` is the
send phase followed by `pcc_fold` and the baseline update. -/
lemma process_no_dispatch (rand : Nat) (sk : Sock) (p : PccData)
    (hv : ¬(pcc_valid p = false)) (hl : ¬(p.loss_state = true))
    (hnd : ((sp1 sk p).intervals.getD (sp1 sk p).recive_index.toNat default).packets_sent_base ≠ 0 →
      recive_interval_ended
        ((pcc_fold (sp2 sk p) (sp1 sk p)).intervals.getD (sp1 sk p).recive_index.toNat default)
        (pcc_fold (sp2 sk p) (sp1 sk p)) = false) :
    pcc_process rand sk p =
      ({ pcc_fold (sp2 sk p) (sp1 sk p) with
          lost_base := (sp2 sk p).lost,
          delivered_base := (sp2 sk p).delivered }, sp2 sk p) := by
  simp only [pcc_process]
  rw [if_neg hv, if_neg hl]
  rw [show (pcc_send_phase (pcc_set_cwnd sk) p) = (sp1 sk p, sp2 sk p) from rfl]
  dsimp only
  by_cases hb0 : ((sp1 sk p).intervals.getD (sp1 sk p).recive_index.toNat default).packets_sent_base = 0
  · rw [if_pos hb0]
    simp only [pcc_fold]
    rw [if_pos hb0]
  · rw [if_neg hb0]
    have hnd' := hnd hb0
    simp only [pcc_fold] at hnd' ⊢
    rw [if_neg hb0] at hnd' ⊢
    by_cases hg : (sp1 sk p).packets_counted >
        (10 + ((sp1 sk p).intervals.getD (sp1 sk p).recive_index.toNat default).packets_sent_base) % 4294967296
    · rw [if_pos hg] at hnd' ⊢
      rw [if_neg (fun hc => Bool.noConfusion (hnd' ▸ hc))]
    · rw [if_neg hg] at hnd' ⊢
      rw [if_neg (fun hc => Bool.noConfusion (hnd' ▸ hc))]

/-- `pcc_recv_completes` is exactly the receive-completion test on the
folded state. -/
lemma recv_completes_char (sk : Sock) (p : PccData)
    (hv : ¬(pcc_valid p = false)) (hl : ¬(p.loss_state = true))
    (hb0 : ¬(((sp1 sk p).intervals.getD (sp1 sk p).recive_index.toNat default).packets_sent_base = 0)) :
    pcc_recv_completes sk p =
      recive_interval_ended
        ((pcc_fold (sp2 sk p) (sp1 sk p)).intervals.getD (sp1 sk p).recive_index.toNat default)
        (pcc_fold (sp2 sk p) (sp1 sk p)) := by
  simp only [pcc_recv_completes]
  rw [if_neg hv, if_neg hl]
  rw [show (pcc_send_phase (pcc_set_cwnd sk) p) = (sp1 sk p, sp2 sk p) from rfl]
  dsimp only
  rw [if_neg hb0]
  simp only [pcc_fold]
  rw [if_neg hb0]

lemma list_set_oob {α : Type} (l : List α) (i : Nat) (x : α) (h : l.length ≤ i) :
    l.set i x = l := by
  induction l generalizing i with
  | nil => rfl
  | cons a t ih =>
    cases i with
    | zero => simp at h
    | succ j =>
      simp only [List.length_cons] at h
      simp only [List.set_cons_succ]
      rw [ih j (by omega)]

/-- A slot-wise field is unchanged by a `set` whose element agrees on
that field with the slot it replaces. -/
lemma getD_set_map {α β : Type} [Inhabited α] (l : List α) (i j : Nat) (x : α) (f : α → β)
    (hx : f x = f (l.getD i default)) :
    f ((l.set i x).getD j default) = f (l.getD j default) := by
  by_cases hij : i = j
  · subst hij
    by_cases hi : i < l.length
    · rw [getD_set_self l i x hi, hx]
    · rw [list_set_oob l i x (Nat.le_of_not_lt hi)]
  · rw [getD_set_ne l i j x hij]

lemma update_base (sk : Sock) (q : PccData) (iv : PccInterval) :
    (pcc_update_interval sk q iv).packets_sent_base = iv.packets_sent_base := by
  simp only [pcc_update_interval]
  split_ifs <;> rfl

lemma update_rate (sk : Sock) (q : PccData) (iv : PccInterval) :
    (pcc_update_interval sk q iv).rate = iv.rate := by
  simp only [pcc_update_interval]
  split_ifs <;> rfl

lemma fold_counted (skr : Sock) (q : PccData) :
    (pcc_fold skr q).packets_counted = sub32 ((skr.delivered + skr.lost) % 4294967296) q.spare := by
  simp only [pcc_fold]
  split_ifs <;> rfl

lemma fold_spare (skr : Sock) (q : PccData) : (pcc_fold skr q).spare = q.spare := by
  simp only [pcc_fold]
  split_ifs <;> rfl

lemma fold_recv (skr : Sock) (q : PccData) : (pcc_fold skr q).recive_index = q.recive_index := by
  simp only [pcc_fold]
  split_ifs <;> rfl

lemma fold_send (skr : Sock) (q : PccData) : (pcc_fold skr q).send_index = q.send_index := by
  simp only [pcc_fold]
  split_ifs <;> rfl

lemma fold_wait (skr : Sock) (q : PccData) : (pcc_fold skr q).wait = q.wait := by
  simp only [pcc_fold]
  split_ifs <;> rfl

lemma fold_length (skr : Sock) (q : PccData) :
    (pcc_fold skr q).intervals.length = q.intervals.length := by
  simp only [pcc_fold]
  split_ifs <;> simp [List.length_set]

lemma fold_base (skr : Sock) (q : PccData) (j : Nat) :
    ((pcc_fold skr q).intervals.getD j default).packets_sent_base =
      ((q.intervals.getD j default)).packets_sent_base := by
  simp only [pcc_fold]
  split_ifs with h1 h2
  · rfl
  · exact getD_set_map _ _ _ _ (fun iv : PccInterval => iv.packets_sent_base) (update_base _ _ _)
  · rfl

lemma fold_rate (skr : Sock) (q : PccData) (j : Nat) :
    ((pcc_fold skr q).intervals.getD j default).rate = ((q.intervals.getD j default)).rate := by
  simp only [pcc_fold]
  split_ifs with h1 h2
  · rfl
  · exact getD_set_map _ _ _ _ (fun iv : PccInterval => iv.rate) (update_rate _ _ _)
  · rfl

lemma sp2_stable (sk : Sock) (p : PccData) : pcc_set_cwnd (sp2 sk p) = sp2 sk p := by
  simp only [sp2, pcc_send_phase, start_next_send_interval, start_interval]
  split_ifs <;> rfl

lemma sp2_dso (sk : Sock) (p : PccData) : (sp2 sk p).data_segs_out = sk.data_segs_out := by
  simp only [sp2, pcc_send_phase, start_next_send_interval, start_interval]
  split_ifs <;> rfl

lemma sp2_lost (sk : Sock) (p : PccData) : (sp2 sk p).lost = sk.lost := by
  simp only [sp2, pcc_send_phase, start_next_send_interval, start_interval]
  split_ifs <;> rfl

lemma sp2_delivered (sk : Sock) (p : PccData) : (sp2 sk p).delivered = sk.delivered := by
  simp only [sp2, pcc_send_phase, start_next_send_interval, start_interval]
  split_ifs <;> rfl

lemma sp2_mstamp (sk : Sock) (p : PccData) : (sp2 sk p).tcp_mstamp = sk.tcp_mstamp := by
  simp only [sp2, pcc_send_phase, start_next_send_interval, start_interval]
  split_ifs <;> rfl

lemma sp2_srtt (sk : Sock) (p : PccData) : (sp2 sk p).srtt_us = sk.srtt_us := by
  simp only [sp2, pcc_send_phase, start_next_send_interval, start_interval]
  split_ifs <;> rfl

lemma sp1_spare (sk : Sock) (p : PccData) : (sp1 sk p).spare = p.spare := by
  simp only [sp1, pcc_send_phase, start_next_send_interval, start_interval]
  split_ifs <;> rfl

lemma sp1_counted (sk : Sock) (p : PccData) : (sp1 sk p).packets_counted = p.packets_counted := by
  simp only [sp1, pcc_send_phase, start_next_send_interval, start_interval]
  split_ifs <;> rfl

lemma sp1_recv (sk : Sock) (p : PccData) : (sp1 sk p).recive_index = p.recive_index := by
  simp only [sp1, pcc_send_phase, start_next_send_interval, start_interval]
  split_ifs <;> rfl

lemma sp1_lost_base (sk : Sock) (p : PccData) : (sp1 sk p).lost_base = p.lost_base := by
  simp only [sp1, pcc_send_phase, start_next_send_interval, start_interval]
  split_ifs <;> rfl

lemma sp1_delivered_base (sk : Sock) (p : PccData) : (sp1 sk p).delivered_base = p.delivered_base := by
  simp only [sp1, pcc_send_phase, start_next_send_interval, start_interval]
  split_ifs <;> rfl

lemma sp1_length (sk : Sock) (p : PccData) : (sp1 sk p).intervals.length = p.intervals.length := by
  simp only [sp1, pcc_send_phase, start_next_send_interval, start_interval]
  split_ifs <;> simp [List.length_set]

lemma sp1_rate (sk : Sock) (p : PccData) (j : Nat) :
    ((sp1 sk p).intervals.getD j default).rate = ((p.intervals.getD j default)).rate := by
  simp only [sp1, pcc_send_phase, start_next_send_interval, start_interval]
  split_ifs with h1 h2 h3 h4
  all_goals try rfl
  · exact h4.elim
  · exact getD_set_map _ _ _ _ (fun iv : PccInterval => iv.rate) rfl
  · exact Eq.trans (getD_set_map _ _ _ _ (fun iv : PccInterval => iv.rate) rfl)
      (getD_set_map _ _ _ _ (fun iv : PccInterval => iv.rate) rfl)

lemma isEmpty_eq_of_length {α : Type} (l1 l2 : List α) (h : l1.length = l2.length) :
    l1.isEmpty = l2.isEmpty := by
  cases l1 <;> cases l2 <;> simp_all

/-- `pcc_valid` only reads the ring's emptiness and interval 0's rate. -/
lemma pcc_valid_eq (p q : PccData)
    (hlen : p.intervals.length = q.intervals.length)
    (hr : (p.intervals.getD 0 default).rate = (q.intervals.getD 0 default).rate) :
    pcc_valid p = pcc_valid q := by
  simp only [pcc_valid, hr, isEmpty_eq_of_length _ _ hlen]

/-- `send_interval_ended` only reads the interval's base, the socket's
`data_segs_out` and the controller's `packets_counted`. -/
lemma send_ended_eq (iv1 iv2 : PccInterval) (sk1 sk2 : Sock) (q1 q2 : PccData)
    (hb : iv1.packets_sent_base = iv2.packets_sent_base)
    (hd : sk1.data_segs_out = sk2.data_segs_out)
    (hc : q1.packets_counted = q2.packets_counted) :
    send_interval_ended iv1 sk1 q1 = send_interval_ended iv2 sk2 q2 := by
  simp only [send_interval_ended, hb, hd, hc]

lemma send_ended_false_of_fresh (iv : PccInterval) (sk : Sock) (q : PccData)
    (h : toI32 (sub32 sk.data_segs_out iv.packets_sent_base) < PCC_INTERVAL_MIN_PACKETS) :
    send_interval_ended iv sk q = false := by
  simp only [send_interval_ended]
  rw [if_pos h]

/-- `recive_interval_ended` only reads the interval and `packets_counted`. -/
lemma recive_ended_eq (iv : PccInterval) (q1 q2 : PccData)
    (hc : q1.packets_counted = q2.packets_counted) :
    recive_interval_ended iv q1 = recive_interval_ended iv q2 := by
  simp only [recive_interval_ended, hc]

/-- Folding the same deltas a second time is a no-op once the baselines
match the host counters, provided the first fold did not wrap the
interval's `lost`/`delivered` counters. -/
lemma update_absorbed (sk1 sk2 : Sock) (q1 q2 : PccData) (iv : PccInterval)
    (hm : sk2.tcp_mstamp = sk1.tcp_mstamp) (hs : sk2.srtt_us = sk1.srtt_us)
    (hz1 : q2.lost_base = sk2.lost) (hz2 : q2.delivered_base = sk2.delivered)
    (hw1 : q1.lost_base ≤ sk1.lost) (hw2 : sk1.lost < 4294967296)
    (hw3 : q1.delivered_base ≤ sk1.delivered) (hw4 : sk1.delivered < 4294967296)
    (hw5 : iv.lost + (sk1.lost - q1.lost_base) < 4294967296)
    (hw6 : iv.delivered + (sk1.delivered - q1.delivered_base) < 4294967296) :
    pcc_update_interval sk2 q2 (pcc_update_interval sk1 q1 iv) =
      pcc_update_interval sk1 q1 iv := by
  have el : sub32 sk1.lost q1.lost_base = sk1.lost - q1.lost_base := sub32_of_le _ _ hw1 hw2
  have ed : sub32 sk1.delivered q1.delivered_base = sk1.delivered - q1.delivered_base :=
    sub32_of_le _ _ hw3 hw4
  have el2 : sub32 sk2.lost q2.lost_base = 0 := by rw [hz1]; exact sub32_self _
  have ed2 : sub32 sk2.delivered q2.delivered_base = 0 := by rw [hz2]; exact sub32_self _
  have ml : (iv.lost + (sk1.lost - q1.lost_base)) % 4294967296 =
      iv.lost + (sk1.lost - q1.lost_base) := Nat.mod_eq_of_lt hw5
  have md : (iv.delivered + (sk1.delivered - q1.delivered_base)) % 4294967296 =
      iv.delivered + (sk1.delivered - q1.delivered_base) := Nat.mod_eq_of_lt hw6
  simp only [pcc_update_interval, el, ed, el2, ed2, hm, hs, ml, md, Nat.add_zero]
  split_ifs with h0 h1 h2
  · simp
  · simp
  · dsimp only at h2
    rw [ml, md] at h2
    exact absurd (show iv.lost + iv.delivered = 0 by omega) h0
  · simp

/-- When the gate fires, `pcc_fold` replaces the receiving slot by the
folded interval. -/
lemma fold_slot (skr : Sock) (q : PccData)
    (hlen : q.recive_index.toNat < q.intervals.length)
    (hb : ¬((q.intervals.getD q.recive_index.toNat default).packets_sent_base = 0))
    (hg : q.packets_counted > (10 + (q.intervals.getD q.recive_index.toNat default).packets_sent_base) % 4294967296) :
    (pcc_fold skr q).intervals.getD q.recive_index.toNat default =
      pcc_update_interval skr
        { q with packets_counted := sub32 ((skr.delivered + skr.lost) % 4294967296) q.spare }
        (q.intervals.getD q.recive_index.toNat default) := by
  simp only [pcc_fold]
  rw [if_neg hb, if_pos hg]
  dsimp only
  exact getD_set_self _ _ _ hlen

/-- With no receiving slot or a closed gate, `pcc_fold` leaves the ring
unchanged. -/
lemma fold_intervals_id (skr : Sock) (q : PccData)
    (h : (q.intervals.getD q.recive_index.toNat default).packets_sent_base = 0 ∨
      ¬(q.packets_counted > (10 + (q.intervals.getD q.recive_index.toNat default).packets_sent_base) % 4294967296)) :
    (pcc_fold skr q).intervals = q.intervals := by
  simp only [pcc_fold]
  split_ifs with h1 h2
  · rfl
  · rcases h with h | h
    · exact absurd h h1
    · exact absurd h2 h
  · rfl

/-- C7 (amended): replaying the identical host sample is idempotent
provided the state's `packets_counted` already reflects the sample, the
first call completes no receive interval (so no decider runs), and the
sample does not wrap the receiving interval's counters.  The second call
then returns exactly the first call's controller state and socket; the
original unconditional claim is refuted by `C7_counterexample`. -/
theorem C7_replay (rand rand2 : Nat) (sk : Sock) (p : PccData)
    (hinv : PccInv p)
    (hpc : p.packets_counted = sub32 ((sk.delivered + sk.lost) % 4294967296) p.spare)
    (hnr : pcc_recv_completes sk p = false)
    (hb1 : p.lost_base ≤ sk.lost) (hb2 : sk.lost < 4294967296)
    (hb3 : p.delivered_base ≤ sk.delivered) (hb4 : sk.delivered < 4294967296)
    (hb5 : (p.intervals.getD p.recive_index.toNat default).lost + (sk.lost - p.lost_base) < 4294967296)
    (hb6 : (p.intervals.getD p.recive_index.toNat default).delivered + (sk.delivered - p.delivered_base) < 4294967296) :
    pcc_process rand2 (pcc_process rand sk p).2 (pcc_process rand sk p).1 = pcc_process rand sk p := by
  by_cases hv : pcc_valid p = false
  · have h1 : pcc_process rand sk p = (p, sk) := by
      simp only [pcc_process]
      rw [if_pos hv]
    rw [h1]
    dsimp only
    simp only [pcc_process]
    rw [if_pos hv]
  · by_cases hls : p.loss_state = true
    · have h1 : pcc_process rand sk p = ({ p with lost_base := (pcc_set_cwnd sk).lost, delivered_base := (pcc_set_cwnd sk).delivered }, pcc_set_cwnd sk) := by
        simp only [pcc_process]
        rw [if_neg hv, if_pos hls]
      rw [h1]
      dsimp only
      simp only [pcc_process]
      rw [if_neg (show ¬(pcc_valid { p with lost_base := (pcc_set_cwnd sk).lost, delivered_base := (pcc_set_cwnd sk).delivered } = false) from hv)]
      rw [if_pos (show ({ p with lost_base := (pcc_set_cwnd sk).lost, delivered_base := (pcc_set_cwnd sk).delivered } : PccData).loss_state = true from hls)]
      rfl
    · have hlsf : p.loss_state = false := by revert hls; cases p.loss_state <;> simp
      obtain ⟨hlen4, hr0, hr4, hs0, hs4, hmode, hprob, hB⟩ := hinv
      have hBR : ((sp1 sk p).wait = true ∨
            send_interval_ended ((sp1 sk p).intervals.getD (sp1 sk p).send_index.toNat default)
              (pcc_set_cwnd sk) (sp1 sk p) = false) ∧
          ((sp1 sk p).intervals.getD p.recive_index.toNat default).lost =
            (p.intervals.getD p.recive_index.toNat default).lost ∧
          ((sp1 sk p).intervals.getD p.recive_index.toNat default).delivered =
            (p.intervals.getD p.recive_index.toNat default).delivered := by
        by_cases hw : p.wait = true
        · have hq := send_phase_noop (pcc_set_cwnd sk) p (Or.inl hw)
          have hQp : sp1 sk p = p := by
            show (pcc_send_phase (pcc_set_cwnd sk) p).1 = p
            rw [hq]
          rw [hQp]
          exact ⟨Or.inl hw, rfl, rfl⟩
        · have hwf : p.wait = false := by revert hw; cases p.wait <;> simp
          by_cases hE : send_interval_ended (p.intervals.getD p.send_index.toNat default) (pcc_set_cwnd sk) p = true
          · by_cases hcond : p.send_index + 1 = (PCC_INTERVALS : Int) ∨ p.start_mode = true ∨ p.moving = true
            · have hQc : sp1 sk p = { p with
                  intervals := p.intervals.set p.send_index.toNat
                    ({ p.intervals.getD p.send_index.toNat default with
                        packets_ended := (pcc_set_cwnd sk).data_segs_out,
                        send_end := (pcc_set_cwnd sk).tcp_mstamp } : PccInterval),
                  send_index := p.send_index + 1,
                  wait := true } := by
                show (pcc_send_phase (pcc_set_cwnd sk) p).1 = _
                simp only [pcc_send_phase]
                rw [if_pos hwf, if_pos hE]
                simp only [start_next_send_interval, start_interval]
                rw [if_pos hcond]
                rw [if_neg (fun hh => Bool.noConfusion hh)]
              refine ⟨Or.inl (by rw [hQc]), ?_, ?_⟩
              · rw [hQc]
                dsimp only
                exact getD_set_map _ _ _ _ (fun iv : PccInterval => iv.lost) rfl
              · rw [hQc]
                dsimp only
                exact getD_set_map _ _ _ _ (fun iv : PccInterval => iv.delivered) rfl
            · have hncond := hcond
              push_neg at hncond
              obtain ⟨hc1, hc2, hc3⟩ := hncond
              have hsm : p.start_mode = false := by revert hc2; cases p.start_mode <;> simp
              have hmv : p.moving = false := by revert hc3; cases p.moving <;> simp
              have hpr := hprob ⟨hlsf, hsm, hmv⟩
              have hsne : p.send_index ≠ 4 := by
                intro hh
                exact Bool.noConfusion (hwf ▸ hpr.2.mpr hh)
              have hc1' : ¬(p.send_index + 1 = 4) := by
                simpa [PCC_INTERVALS] using hc1
              have hQc : sp1 sk p = { p with
                  intervals := (p.intervals.set p.send_index.toNat
                      ({ p.intervals.getD p.send_index.toNat default with
                          packets_ended := (pcc_set_cwnd sk).data_segs_out,
                          send_end := (pcc_set_cwnd sk).tcp_mstamp } : PccInterval)).set
                    (p.send_index + 1).toNat
                    ({ (p.intervals.set p.send_index.toNat
                        ({ p.intervals.getD p.send_index.toNat default with
                            packets_ended := (pcc_set_cwnd sk).data_segs_out,
                            send_end := (pcc_set_cwnd sk).tcp_mstamp } : PccInterval)).getD
                        (p.send_index + 1).toNat default with
                        packets_ended := 0,
                        lost := 0,
                        delivered := 0,
                        packets_sent_base := max (pcc_set_cwnd sk).data_segs_out 1,
                        send_start := (pcc_set_cwnd sk).tcp_mstamp } : PccInterval),
                  send_index := p.send_index + 1 } := by
                show (pcc_send_phase (pcc_set_cwnd sk) p).1 = _
                simp only [pcc_send_phase]
                rw [if_pos hwf, if_pos hE]
                simp only [start_next_send_interval, start_interval]
                rw [if_neg hcond]
                rw [if_pos hwf]
              refine ⟨Or.inr ?_, ?_, ?_⟩
              · rw [hQc]
                dsimp only
                rw [getD_set_self _ _ _ (by rw [List.length_set, hlen4]; omega)]
                exact send_ended_false_of_fresh _ _ _ (toI32_fresh _)
              · rw [hQc]
                dsimp only
                rw [getD_set_ne _ _ _ _ (by omega)]
                exact getD_set_map _ _ _ _ (fun iv : PccInterval => iv.lost) rfl
              · rw [hQc]
                dsimp only
                rw [getD_set_ne _ _ _ _ (by omega)]
                exact getD_set_map _ _ _ _ (fun iv : PccInterval => iv.delivered) rfl
          · have hEf : send_interval_ended (p.intervals.getD p.send_index.toNat default) (pcc_set_cwnd sk) p = false := by
              revert hE
              cases send_interval_ended (p.intervals.getD p.send_index.toNat default) (pcc_set_cwnd sk) p <;> simp
            have hq := send_phase_noop (pcc_set_cwnd sk) p (Or.inr hEf)
            have hQp : sp1 sk p = p := by
              show (pcc_send_phase (pcc_set_cwnd sk) p).1 = p
              rw [hq]
            rw [hQp]
            exact ⟨Or.inr hEf, rfl, rfl⟩
      have hnd : ((sp1 sk p).intervals.getD (sp1 sk p).recive_index.toNat default).packets_sent_base ≠ 0 →
          recive_interval_ended
            ((pcc_fold (sp2 sk p) (sp1 sk p)).intervals.getD (sp1 sk p).recive_index.toNat default)
            (pcc_fold (sp2 sk p) (sp1 sk p)) = false := by
        intro hb
        rw [← recv_completes_char sk p hv hls hb]
        exact hnr
      rw [process_no_dispatch rand sk p hv hls hnd]
      dsimp only
      obtain ⟨hF4q, hql, hqd⟩ := hBR
      set P1 := ({ pcc_fold (sp2 sk p) (sp1 sk p) with lost_base := (sp2 sk p).lost, delivered_base := (sp2 sk p).delivered } : PccData) with hP1
      have hPrec : P1.recive_index = p.recive_index := by
        rw [hP1]
        dsimp only
        rw [fold_recv, sp1_recv]
      have hPsend : P1.send_index = (sp1 sk p).send_index := by
        rw [hP1]
        dsimp only
        rw [fold_send]
      have hPwait : P1.wait = (sp1 sk p).wait := by
        rw [hP1]
        dsimp only
        rw [fold_wait]
      have hPspare : P1.spare = p.spare := by
        rw [hP1]
        dsimp only
        rw [fold_spare, sp1_spare]
      have hPcount : P1.packets_counted = sub32 ((sk.delivered + sk.lost) % 4294967296) p.spare := by
        rw [hP1]
        dsimp only
        rw [fold_counted, sp1_spare, sp2_delivered, sp2_lost]
      have hQcount : (sp1 sk p).packets_counted = P1.packets_counted := by
        rw [sp1_counted, hPcount, hpc]
      have hF2a : P1.lost_base = (sp2 sk p).lost := by rw [hP1]
      have hF2b : P1.delivered_base = (sp2 sk p).delivered := by rw [hP1]
      have hF3 : P1.packets_counted = sub32 (((sp2 sk p).delivered + (sp2 sk p).lost) % 4294967296) P1.spare := by
        rw [hPcount, hPspare, sp2_delivered, sp2_lost]
      have hvt : pcc_valid p = true := by
        revert hv
        cases pcc_valid p <;> simp
      have hF1 : pcc_valid P1 = true := by
        rw [← hvt]
        apply pcc_valid_eq
        · rw [hP1]
          dsimp only
          rw [fold_length, sp1_length]
        · rw [hP1]
          dsimp only
          rw [fold_rate, sp1_rate]
      have hPbase : (P1.intervals.getD P1.recive_index.toNat default).packets_sent_base =
          ((sp1 sk p).intervals.getD p.recive_index.toNat default).packets_sent_base := by
        rw [hPrec, hP1]
        dsimp only
        rw [fold_base]
      have hrIdx : (sp1 sk p).recive_index.toNat < (sp1 sk p).intervals.length := by
        rw [sp1_recv, sp1_length, hlen4]
        omega
      have hF4 : P1.wait = true ∨
          send_interval_ended (P1.intervals.getD P1.send_index.toNat default) (sp2 sk p) P1 = false := by
        rcases hF4q with h | h
        · exact Or.inl (by rw [hPwait, h])
        · refine Or.inr ?_
          rw [send_ended_eq (P1.intervals.getD P1.send_index.toNat default)
            ((sp1 sk p).intervals.getD (sp1 sk p).send_index.toNat default)
            (sp2 sk p) (pcc_set_cwnd sk) P1 (sp1 sk p) ?_ ?_ ?_]
          · exact h
          · rw [hPsend, hP1]
            dsimp only
            rw [fold_base]
          · rw [sp2_dso, set_cwnd_dso]
          · rw [← hQcount]
      have hF5 : (P1.intervals.getD P1.recive_index.toNat default).packets_sent_base ≠ 0 →
          P1.packets_counted > (10 + (P1.intervals.getD P1.recive_index.toNat default).packets_sent_base) % 4294967296 →
          pcc_update_interval (sp2 sk p) P1 (P1.intervals.getD P1.recive_index.toNat default) =
            P1.intervals.getD P1.recive_index.toNat default := by
        intro hbne hgate
        by_cases hg1 : (sp1 sk p).packets_counted >
            (10 + ((sp1 sk p).intervals.getD (sp1 sk p).recive_index.toNat default).packets_sent_base) % 4294967296
        · have hbne' : ¬(((sp1 sk p).intervals.getD (sp1 sk p).recive_index.toNat default).packets_sent_base = 0) := by
            rw [sp1_recv, ← hPbase]
            exact hbne
          have hslot : P1.intervals.getD P1.recive_index.toNat default =
              pcc_update_interval (sp2 sk p)
                { (sp1 sk p) with packets_counted := sub32 (((sp2 sk p).delivered + (sp2 sk p).lost) % 4294967296) (sp1 sk p).spare }
                ((sp1 sk p).intervals.getD (sp1 sk p).recive_index.toNat default) := by
            have hfs := fold_slot (sp2 sk p) (sp1 sk p) hrIdx hbne' hg1
            rw [hPrec, ← sp1_recv, hP1]
            dsimp only
            exact hfs
          rw [hslot]
          apply update_absorbed (sp2 sk p) (sp2 sk p) _ P1 _ rfl rfl hF2a hF2b
          · show (sp1 sk p).lost_base ≤ (sp2 sk p).lost
            rw [sp1_lost_base, sp2_lost]
            exact hb1
          · rw [sp2_lost]
            exact hb2
          · show (sp1 sk p).delivered_base ≤ (sp2 sk p).delivered
            rw [sp1_delivered_base, sp2_delivered]
            exact hb3
          · rw [sp2_delivered]
            exact hb4
          · show ((sp1 sk p).intervals.getD (sp1 sk p).recive_index.toNat default).lost +
                ((sp2 sk p).lost - (sp1 sk p).lost_base) < 4294967296
            rw [sp1_recv, hql, sp2_lost, sp1_lost_base]
            exact hb5
          · show ((sp1 sk p).intervals.getD (sp1 sk p).recive_index.toNat default).delivered +
                ((sp2 sk p).delivered - (sp1 sk p).delivered_base) < 4294967296
            rw [sp1_recv, hqd, sp2_delivered, sp1_delivered_base]
            exact hb6
        · exfalso
          apply hg1
          rw [sp1_counted, hpc, sp1_recv, ← hPbase, ← hPcount]
          exact hgate
      have hF6 : (P1.intervals.getD P1.recive_index.toNat default).packets_sent_base ≠ 0 →
          recive_interval_ended (P1.intervals.getD P1.recive_index.toNat default) P1 = false := by
        intro hbne
        have hbne' : ((sp1 sk p).intervals.getD (sp1 sk p).recive_index.toNat default).packets_sent_base ≠ 0 := by
          rw [sp1_recv, ← hPbase]
          exact hbne
        have h := hnd hbne'
        rw [recive_ended_eq _ P1 (pcc_fold (sp2 sk p) (sp1 sk p)) rfl]
        rw [hPrec, ← sp1_recv]
        exact h
      rw [process_fix rand2 (sp2 sk p) P1 hF1 hF2a hF2b hF3 hF4 hF5 hF6]
      rw [sp2_stable]

def ivC7w : PccInterval :=
  { rate := 1000, recv_start := 0, recv_end := 0, send_start := 0, send_end := 0,
    start_rtt := 0, end_rtt := 0, packets_sent_base := 100, packets_ended := 0,
    utility := 0, lost := 0, delivered := 0 }

def pccC7w : PccData :=
  { intervals := [ivC7w, ivC7w, ivC7w, ivC7w], send_index := 4, recive_index := 2,
    rate := 1000, last_rate := 1000, util_func := UtilFn.vivace, start_mode := false,
    moving := false, loss_state := false, wait := true, last_decision := PccDecision.rate_up,
    lost_base := 10, delivered_base := 40, decisions_count := 0, packets_counted := 50,
    spare := 0, amplifier := 0, swing_buffer := 0, change_bound := 0 }

def skC7w : Sock :=
  { srtt_us := 8000, mss_cache := 1000, data_segs_out := 200, delivered := 40, lost := 10,
    in_flight := 0, tcp_mstamp := 100, snd_cwnd_clamp := 1000000,
    sk_max_pacing_rate := 100000000, sk_pacing_rate := 1000, snd_cwnd := 10 }

theorem C7_replay_witness :
    PccInv pccC7w ∧
    pcc_process 0 (pcc_process 0 skC7w pccC7w).2 (pcc_process 0 skC7w pccC7w).1 =
      pcc_process 0 skC7w pccC7w :=
  ⟨by decide, C7_replay 0 0 skC7w pccC7w (by decide) (by decide) (by decide) (by decide)
    (by decide) (by decide) (by decide) (by decide) (by decide)⟩
